import Mathlib

/-!
Shallow embedding of the ink! marketplace contract `usuarios_sistema`
(src/lib.rs) and verification of its specification claims.

Modelling conventions:
* `AccountId` is modelled as `Nat` (the contract only compares account ids).
* Rust machine integers are modelled as `Nat`; checked arithmetic on `u32`
  (resp. `u128`) is modelled by explicit guards against `u32Max`
  (resp. `u128Max`): `checked_add`/`checked_mul` succeed exactly when the
  mathematical result is within range, `checked_sub` succeeds exactly when
  no underflow occurs.
* The contract is compiled for the wasm32 target, where `usize` is 32 bits,
  so the source casts `id as usize` (with `id : u128`) truncate: they are
  modelled as `id % usizeMod` with `usizeMod = 2 ^ 32`.
* `ink::storage::Mapping` is modelled as an association list with
  insert-or-replace (`mput`) and lookup (`mget`); the contract only uses
  point lookups and inserts.
* Each state-mutating operation is a function `Sistema → args → Except ErrorSistema α × Sistema`,
  returning the result together with the post-state (Rust's `?` on an `Err`
  returns with whatever partial mutations have been applied, which the
  explicit state threading reproduces).
* The `unwrap()` panic that `_crear_publicacion` can hit is modelled by an
  `Option` layer: `none` is the panic.
-/

def u32Max : Nat := 2 ^ 32 - 1

def u128Max : Nat := 2 ^ 128 - 1

def usizeMod : Nat := 2 ^ 32

abbrev AccountId := Nat

inductive Rol where
  | Comprador
  | Vendedor
  | Ambos
deriving DecidableEq, Repr

inductive Categoria where
  | Limpieza
  | Tecnologia
  | Musica
  | Ropa
  | Calzado
  | Otros
deriving DecidableEq, Repr

inductive ErrorSistema where
  | UsuarioYaRegistrado
  | UsuarioNoExiste
  | RolYaEnUso
  | ProductosLleno
  | UsuarioNoEsVendedor
  | UsuarioNoEsComprador
  | ProductoInvalido
  | PublicacionesLleno
  | CompraSinItems
  | PublicacionNoValida
  | StockInsuficiente
  | VendedorDistinto
  | IdDeOrdenNoValida
  | PublicacionRepetida
  | NoPuedeComprarCero
  | NoPuedeComprarPublicacionPropia
  | OperacionNoValida
  | CancelacionYaSolicitada
  | DineroInsuficiente
  | FueraDeRango
  | OrdenCancelada
deriving DecidableEq, Repr

structure Usuario where
  nombre : String
  apellido : String
  email : String
  id : AccountId
  rol : Rol
  publicaciones : List Nat
  ordenes : List Nat
deriving DecidableEq, Repr

structure Producto where
  nombre : String
  descripcion : String
  categoria : Categoria
deriving DecidableEq, Repr

structure Publicacion where
  id_publicacion : Nat
  id_producto : Nat
  id_publicador : AccountId
  precio : Nat
  stock : Nat
  activa : Bool
deriving DecidableEq, Repr

inductive EstadoOrdenCompra where
  | Pendiente
  | Enviado
  | Recibido
  | Cancelado
deriving DecidableEq, Repr

structure OrdenCompra where
  lista_productos : List (Nat × Nat)
  id_orden_compra : Nat
  estado : EstadoOrdenCompra
  id_comprador : AccountId
  id_vendedor : AccountId
  solicitud_cancelacion : Option AccountId
  monto : Nat
deriving DecidableEq, Repr

structure Sistema where
  usuarios : List (AccountId × Usuario)
  publicaciones : List Publicacion
  productos : List (Nat × Producto)
  ordenes : List OrdenCompra
  proximo_id_publicacion : Nat
  proximo_id_producto : Nat
  proximo_id_orden : Nat
deriving DecidableEq, Repr

deriving instance DecidableEq for Except

/-- Point lookup in the association-list model of `ink::storage::Mapping`. -/
def mget {β : Type} (m : List (Nat × β)) (k : Nat) : Option β :=
  (m.find? (fun p => p.1 == k)).map (·.2)

/-- Insert-or-replace in the association-list model of `ink::storage::Mapping`. -/
def mput {β : Type} : List (Nat × β) → Nat → β → List (Nat × β)
  | [], k, v => [(k, v)]
  | (k', v') :: rest, k, v =>
      if k' = k then (k, v) :: rest else (k', v') :: mput rest k v

/-- Rust's `Iterator::position`, as used by `actualizar_stock_de_orden`. -/
def listPosition {α : Type} (p : α → Bool) : List α → Option Nat
  | [] => none
  | x :: xs => if p x then some 0 else (listPosition p xs).map (· + 1)

/-- Constructor `Sistema::new()`. -/
def Sistema.new : Sistema :=
  { usuarios := [], publicaciones := [], productos := [], ordenes := []
    proximo_id_publicacion := 0, proximo_id_producto := 0, proximo_id_orden := 0 }

/-- `Sistema::_existe_usuario`. -/
def Sistema.existe_usuario (s : Sistema) (id : AccountId) : Except ErrorSistema Bool :=
  if (mget s.usuarios id).isSome then .ok true else .error .UsuarioNoExiste

/-- `Sistema::_es_vendedor` (the `#[ink(message)]` wrapper `es_vendedor`
only supplies the caller id). -/
def Sistema.es_vendedor (s : Sistema) (id : AccountId) : Except ErrorSistema Bool :=
  if (s.existe_usuario id).isOk = false then .error .UsuarioNoExiste
  else
    match mget s.usuarios id with
    | some user =>
        match user.rol with
        | .Vendedor | .Ambos => .ok true
        | _ => .ok false
    | none => .error .UsuarioNoExiste

/-- `Sistema::_es_comprador`. -/
def Sistema.es_comprador (s : Sistema) (id : AccountId) : Except ErrorSistema Bool :=
  if (s.existe_usuario id).isOk = false then .error .UsuarioNoExiste
  else
    match mget s.usuarios id with
    | some user =>
        match user.rol with
        | .Comprador | .Ambos => .ok true
        | _ => .ok false
    | none => .error .UsuarioNoExiste

/-- `Sistema::_registrar_usuario`. -/
def Sistema.registrar_usuario (s : Sistema) (nombre apellido email : String)
    (rol : Rol) (id : AccountId) : Except ErrorSistema Unit × Sistema :=
  if (mget s.usuarios id).isSome then (.error .UsuarioYaRegistrado, s)
  else
    let nuevo : Usuario :=
      { nombre := nombre, apellido := apellido, email := email, id := id
        rol := rol, publicaciones := [], ordenes := [] }
    (.ok (), { s with usuarios := mput s.usuarios id nuevo })

/-- `Usuario::agregar_rol`. -/
def Usuario.agregar_rol (u : Usuario) (rol : Rol) : Except ErrorSistema Usuario :=
  if u.rol = rol ∨ u.rol = .Ambos then .error .RolYaEnUso
  else
    .ok { u with rol :=
      match u.rol, rol with
      | .Comprador, .Vendedor => .Ambos
      | .Vendedor, .Comprador => .Ambos
      | _, _ => rol }

/-- `Sistema::_agregar_rol`. -/
def Sistema.agregar_rol (s : Sistema) (rol : Rol) (id : AccountId) :
    Except ErrorSistema Unit × Sistema :=
  match mget s.usuarios id with
  | some user =>
      match user.agregar_rol rol with
      | .ok user' => (.ok (), { s with usuarios := mput s.usuarios id user' })
      | .error e => (.error e, s)
  | none => (.error .UsuarioNoExiste, s)

/-- `Sistema::existe_producto`. -/
def Sistema.existe_producto (s : Sistema) (id : Nat) : Bool :=
  s.proximo_id_producto > id

/-- `Sistema::generar_id_producto` (checked `u128` increment). -/
def Sistema.generar_id_producto (s : Sistema) : Except ErrorSistema Nat × Sistema :=
  if s.proximo_id_producto < u128Max then
    (.ok s.proximo_id_producto, { s with proximo_id_producto := s.proximo_id_producto + 1 })
  else (.error .ProductosLleno, s)

/-- `Sistema::nuevo_producto`.  The source's `if let Ok(false) = self.es_vendedor()`
only reacts to a successful `Ok(false)`; an `Err` cannot occur here because
`_existe_usuario` was checked first. -/
def Sistema.nuevo_producto (s : Sistema) (nombre descripcion : String)
    (categoria : Categoria) (caller : AccountId) : Except ErrorSistema Nat × Sistema :=
  match s.existe_usuario caller with
  | .error e => (.error e, s)
  | .ok _ =>
      match s.es_vendedor caller with
      | .ok false => (.error .UsuarioNoEsVendedor, s)
      | _ =>
        match s.generar_id_producto with
        | (.error e, s') => (.error e, s')
        | (.ok id_producto, s') =>
            let producto : Producto :=
              { nombre := nombre, descripcion := descripcion, categoria := categoria }
            (.ok id_producto, { s' with productos := mput s'.productos id_producto producto })

/-- `Sistema::generar_id_publicacion` (checked `u128` increment). -/
def Sistema.generar_id_publicacion (s : Sistema) : Except ErrorSistema Nat × Sistema :=
  if s.proximo_id_publicacion < u128Max then
    (.ok s.proximo_id_publicacion, { s with proximo_id_publicacion := s.proximo_id_publicacion + 1 })
  else (.error .PublicacionesLleno, s)

/-- `Sistema::_crear_publicacion`.  `none` models the Rust panic at
`self.usuarios.get(&usuario_id).unwrap()`: when the caller is not
registered, `es_vendedor()` returns an `Err` that the preceding
`if let Ok(false)` silently discards, and the `unwrap()` is reached
with an empty lookup. -/
def Sistema.crear_publicacion (s : Sistema) (id_producto precio stock : Nat)
    (caller : AccountId) : Option (Except ErrorSistema Unit × Sistema) :=
  match s.es_vendedor caller with
  | .ok false => some (.error .UsuarioNoEsVendedor, s)
  | _ =>
    if s.existe_producto id_producto = false then some (.error .ProductoInvalido, s)
    else if stock = 0 then some (.error .StockInsuficiente, s)
    else
      match mget s.usuarios caller with
      | none => none
      | some usuario =>
          match s.generar_id_publicacion with
          | (.error e, s') => some (.error e, s')
          | (.ok id_publicacion, s') =>
              let publi : Publicacion :=
                { id_publicacion := id_publicacion, id_producto := id_producto
                  id_publicador := caller, precio := precio, stock := stock, activa := true }
              let s2 := { s' with publicaciones := s'.publicaciones ++ [publi] }
              let usuario' : Usuario :=
                { usuario with publicaciones := usuario.publicaciones ++ [id_publicacion] }
              some (.ok (), { s2 with usuarios := mput s2.usuarios caller usuario' })

/-- `Publicacion::tiene_stock_suficiente`. -/
def Publicacion.tiene_stock_suficiente (p : Publicacion) (cant : Nat) : Bool :=
  p.stock ≥ cant

/-- `Publicacion::actualizar_stock` (checked `u32` subtraction; the error
variant in the source is `PublicacionesLleno`). -/
def Publicacion.actualizar_stock (p : Publicacion) (cant : Nat) :
    Except ErrorSistema Unit × Publicacion :=
  if cant ≤ p.stock then (.ok (), { p with stock := p.stock - cant })
  else (.error .PublicacionesLleno, p)

/-- Loop body of `Sistema::validar_orden`, with the `BTreeSet` of already
seen listing ids carried explicitly. -/
def Sistema.validar_orden_desde (s : Sistema) (vendedor_actual : AccountId) :
    List (Nat × Nat) → List Nat → Except ErrorSistema Unit
  | [], _ => .ok ()
  | (id_publicacion_actual, cant_productos) :: rest, vistos =>
      if id_publicacion_actual ∈ vistos then .error .PublicacionRepetida
      else if cant_productos = 0 then .error .NoPuedeComprarCero
      else
        match s.publicaciones.find? (fun x => x.id_publicacion == id_publicacion_actual) with
        | some publicacion_actual =>
            if publicacion_actual.id_publicador ≠ vendedor_actual then .error .VendedorDistinto
            else if publicacion_actual.tiene_stock_suficiente cant_productos = false then
              .error .StockInsuficiente
            else s.validar_orden_desde vendedor_actual rest (id_publicacion_actual :: vistos)
        | none => .error .PublicacionNoValida

/-- `Sistema::validar_orden`. -/
def Sistema.validar_orden (s : Sistema) (lista : List (Nat × Nat))
    (vendedor_actual : AccountId) : Except ErrorSistema Unit :=
  s.validar_orden_desde vendedor_actual lista []

/-- Loop body of `Sistema::validar_precio`, with the running total carried
explicitly.  The source looks the listing up positionally,
`self.publicaciones.get(id_publicacion as usize)`, and the `u128 → usize`
cast truncates to 32 bits on the wasm32 target. -/
def Sistema.validar_precio_desde (s : Sistema) (dinero_disponible : Nat) :
    List (Nat × Nat) → Nat → Except ErrorSistema Nat
  | [], monto_total =>
      if dinero_disponible ≥ monto_total then .ok monto_total
      else .error .DineroInsuficiente
  | (id_publicacion, cant_productos) :: rest, monto_total =>
      match s.publicaciones.get? (id_publicacion % usizeMod) with
      | some publicacion_actual =>
          if publicacion_actual.precio * cant_productos > u32Max then .error .FueraDeRango
          else if monto_total + publicacion_actual.precio * cant_productos > u32Max then
            .error .FueraDeRango
          else s.validar_precio_desde dinero_disponible rest
            (monto_total + publicacion_actual.precio * cant_productos)
      | none => .error .PublicacionNoValida

/-- `Sistema::validar_precio`. -/
def Sistema.validar_precio (s : Sistema) (lista : List (Nat × Nat))
    (dinero_disponible : Nat) : Except ErrorSistema Nat :=
  s.validar_precio_desde dinero_disponible lista 0

/-- `Sistema::generar_id_orden` (checked `u128` increment; the error variant
in the source is `PublicacionesLleno`). -/
def Sistema.generar_id_orden (s : Sistema) : Except ErrorSistema Nat × Sistema :=
  if s.proximo_id_orden < u128Max then
    (.ok s.proximo_id_orden, { s with proximo_id_orden := s.proximo_id_orden + 1 })
  else (.error .PublicacionesLleno, s)

/-- `Sistema::actualizar_stock_de_orden`.  The source discards the
`Result` of `actualizar_stock` and skips entries whose `position`
lookup fails. -/
def Sistema.actualizar_stock_de_orden (s : Sistema) :
    List (Nat × Nat) → List (Nat × Nat) × Sistema
  | [] => ([], s)
  | (id_publi, cant_productos) :: rest =>
      match listPosition (fun x => x.id_publicacion == id_publi) s.publicaciones with
      | some posicion =>
          match s.publicaciones.get? posicion with
          | some publicacion_actual =>
              let p' := (publicacion_actual.actualizar_stock cant_productos).2
              let s' := { s with publicaciones := s.publicaciones.set posicion p' }
              let r := s'.actualizar_stock_de_orden rest
              ((p'.id_producto, cant_productos) :: r.1, r.2)
          | none => s.actualizar_stock_de_orden rest
      | none => s.actualizar_stock_de_orden rest

/-- `Sistema::agregar_orden_usuario`. -/
def Sistema.agregar_orden_usuario (s : Sistema) (user_id : AccountId) (id_orden : Nat) :
    Except ErrorSistema Unit × Sistema :=
  match mget s.usuarios user_id with
  | some user =>
      let user' : Usuario := { user with ordenes := user.ordenes ++ [id_orden] }
      (.ok (), { s with usuarios := mput s.usuarios user_id user' })
  | none => (.error .UsuarioNoExiste, s)

/-- `Sistema::_generar_orden_compra`.  The source calls `es_comprador()`
twice (once for error propagation, once for the boolean); both calls are
pure and read the same state. -/
def Sistema.generar_orden_compra (s : Sistema) (lista : List (Nat × Nat))
    (dinero_disponible : Nat) (caller : AccountId) :
    Except ErrorSistema OrdenCompra × Sistema :=
  match s.es_comprador caller with
  | .error e => (.error e, s)
  | .ok _ =>
      match s.es_comprador caller with
      | .error e => (.error e, s)
      | .ok comprador =>
          if comprador = false then (.error .UsuarioNoEsComprador, s)
          else
            match lista with
            | [] => (.error .CompraSinItems, s)
            | (id0, _) :: _ =>
                match s.publicaciones.find? (fun x => x.id_publicacion == id0) with
                | none => (.error .PublicacionNoValida, s)
                | some publi =>
                    let vendedor_actual := publi.id_publicador
                    if vendedor_actual = caller then
                      (.error .NoPuedeComprarPublicacionPropia, s)
                    else
                      match s.validar_orden lista vendedor_actual with
                      | .error e => (.error e, s)
                      | .ok _ =>
                          match s.validar_precio lista dinero_disponible with
                          | .error e => (.error e, s)
                          | .ok monto_total =>
                              let r := s.actualizar_stock_de_orden lista
                              let lista_compra := r.1
                              match r.2.generar_id_orden with
                              | (.error e, s2) => (.error e, s2)
                              | (.ok id_orden, s2) =>
                                  let orden : OrdenCompra :=
                                    { lista_productos := lista_compra
                                      id_orden_compra := id_orden
                                      estado := .Pendiente
                                      id_comprador := caller
                                      id_vendedor := vendedor_actual
                                      solicitud_cancelacion := none
                                      monto := monto_total }
                                  let s3 := { s2 with ordenes := s2.ordenes ++ [orden] }
                                  match s3.agregar_orden_usuario caller id_orden with
                                  | (.error e, s4) => (.error e, s4)
                                  | (.ok _, s4) =>
                                      match s4.agregar_orden_usuario vendedor_actual id_orden with
                                      | (.error e, s5) => (.error e, s5)
                                      | (.ok _, s5) => (.ok orden, s5)

/-- `Sistema::_marcar_orden_como_enviada`; the order is looked up
positionally through the truncating `id_actual as usize` cast. -/
def Sistema.marcar_orden_como_enviada (s : Sistema) (id_actual : Nat)
    (caller : AccountId) : Except ErrorSistema Unit × Sistema :=
  match s.ordenes.get? (id_actual % usizeMod) with
  | some orden_actual =>
      if orden_actual.id_vendedor ≠ caller then (.error .OperacionNoValida, s)
      else
        match orden_actual.estado with
        | .Pendiente =>
            let orden' : OrdenCompra := { orden_actual with estado := .Enviado }
            (.ok (), { s with ordenes := s.ordenes.set (id_actual % usizeMod) orden' })
        | _ => (.error .OperacionNoValida, s)
  | none => (.error .IdDeOrdenNoValida, s)

/-- `Sistema::_marcar_orden_como_recibida`. -/
def Sistema.marcar_orden_como_recibida (s : Sistema) (id_actual : Nat)
    (caller : AccountId) : Except ErrorSistema Unit × Sistema :=
  match s.ordenes.get? (id_actual % usizeMod) with
  | some orden_actual =>
      if orden_actual.id_comprador ≠ caller then (.error .OperacionNoValida, s)
      else
        match orden_actual.estado with
        | .Enviado =>
            let orden' : OrdenCompra := { orden_actual with estado := .Recibido }
            (.ok (), { s with ordenes := s.ordenes.set (id_actual % usizeMod) orden' })
        | _ => (.error .OperacionNoValida, s)
  | none => (.error .IdDeOrdenNoValida, s)

/-- `Sistema::_cancelar_orden`. -/
def Sistema.cancelar_orden (s : Sistema) (id_actual : Nat) (caller : AccountId) :
    Except ErrorSistema Unit × Sistema :=
  match s.ordenes.get? (id_actual % usizeMod) with
  | some orden_actual =>
      if orden_actual.estado = .Cancelado then (.error .OrdenCancelada, s)
      else if orden_actual.estado = .Recibido then (.error .OperacionNoValida, s)
      else
        match orden_actual.solicitud_cancelacion with
        | some id_anterior =>
            if id_anterior = caller then (.error .CancelacionYaSolicitada, s)
            else if id_anterior = orden_actual.id_comprador ∨
                id_anterior = orden_actual.id_vendedor then
              let orden' : OrdenCompra := { orden_actual with estado := .Cancelado }
              (.ok (), { s with ordenes := s.ordenes.set (id_actual % usizeMod) orden' })
            else
              let orden' : OrdenCompra :=
                { orden_actual with solicitud_cancelacion := some caller }
              (.ok (), { s with ordenes := s.ordenes.set (id_actual % usizeMod) orden' })
        | none =>
            let orden' : OrdenCompra :=
              { orden_actual with solicitud_cancelacion := some caller }
            (.ok (), { s with ordenes := s.ordenes.set (id_actual % usizeMod) orden' })
  | none => (.error .IdDeOrdenNoValida, s)

/-- Argument range for an order's item list: listing ids are `u128`,
quantities are `u32`. -/
def listaOk (lista : List (Nat × Nat)) : Prop :=
  ∀ pr ∈ lista, pr.1 ≤ u128Max ∧ pr.2 ≤ u32Max

instance (lista : List (Nat × Nat)) : Decidable (listaOk lista) := by
  unfold listaOk; infer_instance

/-- One public mutating call of the contract, with arguments ranging over
the values representable in the Rust signature.  A panicking execution of
`crear_publicacion` (the `none` case) traps and is therefore not a
transition. -/
inductive Step : Sistema → Sistema → Prop where
  | registrar (s : Sistema) (nombre apellido email : String) (rol : Rol) (caller : AccountId) :
      Step s (s.registrar_usuario nombre apellido email rol caller).2
  | agregarRol (s : Sistema) (rol : Rol) (caller : AccountId) :
      Step s (s.agregar_rol rol caller).2
  | nuevoProducto (s : Sistema) (nombre descripcion : String) (categoria : Categoria)
      (caller : AccountId) :
      Step s (s.nuevo_producto nombre descripcion categoria caller).2
  | crearPublicacion (s : Sistema) (id_producto precio stock : Nat) (caller : AccountId)
      (out : Except ErrorSistema Unit × Sistema)
      (hid : id_producto ≤ u128Max) (hp : precio ≤ u32Max) (hs : stock ≤ u32Max)
      (h : s.crear_publicacion id_producto precio stock caller = some out) :
      Step s out.2
  | generarOrden (s : Sistema) (lista : List (Nat × Nat)) (dinero : Nat) (caller : AccountId)
      (hl : listaOk lista) (hd : dinero ≤ u32Max) :
      Step s (s.generar_orden_compra lista dinero caller).2
  | marcarEnviada (s : Sistema) (id_actual : Nat) (caller : AccountId)
      (hid : id_actual ≤ u128Max) :
      Step s (s.marcar_orden_como_enviada id_actual caller).2
  | marcarRecibida (s : Sistema) (id_actual : Nat) (caller : AccountId)
      (hid : id_actual ≤ u128Max) :
      Step s (s.marcar_orden_como_recibida id_actual caller).2
  | cancelar (s : Sistema) (id_actual : Nat) (caller : AccountId)
      (hid : id_actual ≤ u128Max) :
      Step s (s.cancelar_orden id_actual caller).2

/-- States reachable from `Sistema::new()` through public calls. -/
inductive Reachable : Sistema → Prop where
  | init : Reachable Sistema.new
  | step {s s' : Sistema} : Reachable s → Step s s' → Reachable s'

/-- Reference loop for price validation, written from the specification's
words: the listing for each item is found "by matching id_publicacion in
the listing sequence rather than by position". Everything else mirrors
`validar_precio_desde`. -/
def validar_precio_by_id_desde (s : Sistema) (dinero_disponible : Nat) :
    List (Nat × Nat) → Nat → Except ErrorSistema Nat
  | [], monto_total =>
      if dinero_disponible ≥ monto_total then .ok monto_total
      else .error .DineroInsuficiente
  | (id_publicacion, cant_productos) :: rest, monto_total =>
      match s.publicaciones.find? (fun x => x.id_publicacion == id_publicacion) with
      | some publicacion_actual =>
          if publicacion_actual.precio * cant_productos > u32Max then .error .FueraDeRango
          else if monto_total + publicacion_actual.precio * cant_productos > u32Max then
            .error .FueraDeRango
          else validar_precio_by_id_desde s dinero_disponible rest
            (monto_total + publicacion_actual.precio * cant_productos)
      | none => .error .PublicacionNoValida

/-- Reference id-based price validation (see `validar_precio_by_id_desde`). -/
def validar_precio_by_id (s : Sistema) (lista : List (Nat × Nat))
    (dinero_disponible : Nat) : Except ErrorSistema Nat :=
  validar_precio_by_id_desde s dinero_disponible lista 0

/-- The listing stored at position `i` carries `id_publicacion = i`. -/
def PosIds (l : List Publicacion) : Prop :=
  ∀ i p, l.get? i = some p → p.id_publicacion = i

/-- The order stored at position `i` carries `id_orden_compra = i`. -/
def OrdIds (l : List OrdenCompra) : Prop :=
  ∀ i o, l.get? i = some o → o.id_orden_compra = i

/-- The positional-id invariant of the shared state: listings and orders
are stored at the position equal to their id, and the two id counters
equal the respective sequence lengths. -/
def PosOk (s : Sistema) : Prop :=
  PosIds s.publicaciones ∧ OrdIds s.ordenes ∧
  s.proximo_id_publicacion = s.publicaciones.length ∧
  s.proximo_id_orden = s.ordenes.length

/-- Per-item prices as resolved by the code's price validation (positional
lookup through the truncating cast), as mathematical naturals. -/
def precioItems (s : Sistema) : List (Nat × Nat) → Option (List Nat)
  | [] => some []
  | (id_publicacion, cant) :: rest =>
      match s.publicaciones.get? (id_publicacion % usizeMod) with
      | some p => (precioItems s rest).map (p.precio * cant :: ·)
      | none => none

/-! ### Concrete reachable states used in witnesses and counterexamples

`stateS1` … `stateS7` are the states of one short interaction: account 0
registers as a seller, creates product 0 and listing 0 (price 1000,
stock 4); account 1 registers with both roles and (in one branch) creates
listing 1, or (in the other branch) buys one unit of listing 0, after
which account 55 files a cancellation request for the resulting order. -/

def stateS1 : Sistema :=
  ⟨[(0, ⟨"a", "b", "c", 0, .Vendedor, [], []⟩)], [], [], [], 0, 0, 0⟩

def stateS2 : Sistema :=
  ⟨[(0, ⟨"a", "b", "c", 0, .Vendedor, [], []⟩)], [], [(0, ⟨"p", "d", .Otros⟩)], [], 0, 1, 0⟩

def stateS3 : Sistema :=
  ⟨[(0, ⟨"a", "b", "c", 0, .Vendedor, [0], []⟩)], [⟨0, 0, 0, 1000, 4, true⟩],
    [(0, ⟨"p", "d", .Otros⟩)], [], 1, 1, 0⟩

def stateS4 : Sistema :=
  ⟨[(0, ⟨"a", "b", "c", 0, .Vendedor, [0], []⟩), (1, ⟨"x", "y", "z", 1, .Ambos, [], []⟩)],
    [⟨0, 0, 0, 1000, 4, true⟩], [(0, ⟨"p", "d", .Otros⟩)], [], 1, 1, 0⟩

def stateS5 : Sistema :=
  ⟨[(0, ⟨"a", "b", "c", 0, .Vendedor, [0], []⟩), (1, ⟨"x", "y", "z", 1, .Ambos, [1], []⟩)],
    [⟨0, 0, 0, 1000, 4, true⟩, ⟨1, 0, 1, 7, 5, true⟩],
    [(0, ⟨"p", "d", .Otros⟩)], [], 2, 1, 0⟩

def stateS6 : Sistema :=
  ⟨[(0, ⟨"a", "b", "c", 0, .Vendedor, [0], [0]⟩), (1, ⟨"x", "y", "z", 1, .Ambos, [], [0]⟩)],
    [⟨0, 0, 0, 1000, 3, true⟩], [(0, ⟨"p", "d", .Otros⟩)],
    [⟨[(0, 1)], 0, .Pendiente, 1, 0, none, 1000⟩], 1, 1, 1⟩

def stateS7 : Sistema :=
  ⟨[(0, ⟨"a", "b", "c", 0, .Vendedor, [0], [0]⟩), (1, ⟨"x", "y", "z", 1, .Ambos, [], [0]⟩)],
    [⟨0, 0, 0, 1000, 3, true⟩], [(0, ⟨"p", "d", .Otros⟩)],
    [⟨[(0, 1)], 0, .Pendiente, 1, 0, some 55, 1000⟩], 1, 1, 1⟩

/-! ### The state family used for claim C1

Account 0 is a seller, account 1 a buyer.  In round `k` the seller
creates listing `k` (product 0, price 1, stock 2) and the buyer
immediately buys one unit of it.  After `k` rounds every listing has
stock 1 and all three of the listing/order counters and sequence lengths
equal `k`.  Running all `u128Max` rounds exhausts the order-id counter. -/

def c1Pub (i : Nat) : Publicacion := ⟨i, 0, 0, 1, 1, true⟩

def c1PubNueva (i : Nat) : Publicacion := ⟨i, 0, 0, 1, 2, true⟩

def c1Ord (i : Nat) : OrdenCompra := ⟨[(0, 1)], i, .Pendiente, 1, 0, none, 1⟩

def c1State (k : Nat) : Sistema :=
  ⟨[(0, ⟨"a", "b", "c", 0, .Vendedor, List.range k, List.range k⟩),
    (1, ⟨"x", "y", "z", 1, .Comprador, [], List.range k⟩)],
    (List.range k).map c1Pub, [(0, ⟨"p", "d", .Otros⟩)],
    (List.range k).map c1Ord, k, 1, k⟩

/-- Intermediate state of round `k`: listing `k` just created (stock 2),
purchase not yet made. -/
def c1Mid (k : Nat) : Sistema :=
  ⟨[(0, ⟨"a", "b", "c", 0, .Vendedor, List.range (k + 1), List.range k⟩),
    (1, ⟨"x", "y", "z", 1, .Comprador, [], List.range k⟩)],
    (List.range k).map c1Pub ++ [c1PubNueva k], [(0, ⟨"p", "d", .Otros⟩)],
    (List.range k).map c1Ord, k + 1, 1, k⟩

/-! ### Reachability of the concrete states -/

theorem reach_stateS1 : Reachable stateS1 := by
  have h := Reachable.step Reachable.init (Step.registrar Sistema.new "a" "b" "c" .Vendedor 0)
  have e : (Sistema.new.registrar_usuario "a" "b" "c" .Vendedor 0).2 = stateS1 := by decide
  rwa [e] at h

theorem reach_stateS2 : Reachable stateS2 := by
  have h := Reachable.step reach_stateS1 (Step.nuevoProducto stateS1 "p" "d" .Otros 0)
  have e : (stateS1.nuevo_producto "p" "d" .Otros 0).2 = stateS2 := by decide
  rwa [e] at h

theorem reach_stateS3 : Reachable stateS3 := by
  have hs : stateS2.crear_publicacion 0 1000 4 0 = some (.ok (), stateS3) := by decide
  exact Reachable.step reach_stateS2
    (Step.crearPublicacion stateS2 0 1000 4 0 (.ok (), stateS3)
      (by decide) (by decide) (by decide) hs)

theorem reach_stateS4 : Reachable stateS4 := by
  have h := Reachable.step reach_stateS3 (Step.registrar stateS3 "x" "y" "z" .Ambos 1)
  have e : (stateS3.registrar_usuario "x" "y" "z" .Ambos 1).2 = stateS4 := by decide
  rwa [e] at h

theorem reach_stateS5 : Reachable stateS5 := by
  have hs : stateS4.crear_publicacion 0 7 5 1 = some (.ok (), stateS5) := by decide
  exact Reachable.step reach_stateS4
    (Step.crearPublicacion stateS4 0 7 5 1 (.ok (), stateS5)
      (by decide) (by decide) (by decide) hs)

theorem reach_stateS6 : Reachable stateS6 := by
  have h := Reachable.step reach_stateS4
    (Step.generarOrden stateS4 [(0, 1)] 4000 1 (by decide) (by decide))
  have e : (stateS4.generar_orden_compra [(0, 1)] 4000 1).2 = stateS6 := by decide
  rwa [e] at h

theorem reach_stateS7 : Reachable stateS7 := by
  have h := Reachable.step reach_stateS6 (Step.cancelar stateS6 0 55 (by decide))
  have e : (stateS6.cancelar_orden 0 55).2 = stateS7 := by decide
  rwa [e] at h

/-! ### Counterexample and code-bug exhibit theorems -/

/-- Claim C2, code-bug exhibit: in the reachable state `stateS2` (one
registered seller, one product) the call `crear_publicacion(0, 5, 1)` by
the unregistered account 99 reaches the `unwrap()` on an empty user
lookup and panics (modelled as `none`), instead of returning a typed
`ErrorSistema` value. -/
theorem c2_crear_publicacion_panics :
    Reachable stateS2 ∧ mget stateS2.usuarios 99 = none ∧
    stateS2.existe_producto 0 = true ∧
    stateS2.crear_publicacion 0 5 1 99 = none :=
  ⟨reach_stateS2, by decide, by decide, by decide⟩

/-- Claim C3, counterexample: in the reachable state `stateS5`, account 1
owns listing 1, yet its purchase request `[(0,1), (1,1)]` — which contains
its own listing in second position — fails with `VendedorDistinto`, not
with `NoPuedeComprarPublicacionPropia` as the claim states. -/
theorem c3_counterexample :
    Reachable stateS5 ∧
    stateS5.publicaciones.get? 1 = some ⟨1, 0, 1, 7, 5, true⟩ ∧
    (stateS5.generar_orden_compra [(0, 1), (1, 1)] 100 1).1 = .error .VendedorDistinto ∧
    (stateS5.generar_orden_compra [(0, 1), (1, 1)] 100 1).1 ≠
      .error .NoPuedeComprarPublicacionPropia :=
  ⟨reach_stateS5, by decide, by decide, by decide⟩

/-- Claim C4, counterexample: in the reachable state `stateS7` order 0 is
`Pendiente` with `cancellation_request = some 55` (account 55 is neither
buyer nor seller), and the call by account 0 ≠ 55 succeeds but leaves the
status `Pendiente`, merely overwriting the request with `some 0` — it does
not transition the order to `Cancelado` as the claim states. -/
theorem c4_counterexample :
    Reachable stateS7 ∧
    (stateS7.ordenes.get? 0).map (·.estado) = some .Pendiente ∧
    (stateS7.ordenes.get? 0).bind (·.solicitud_cancelacion) = some 55 ∧
    (stateS7.cancelar_orden 0 0).1 = .ok () ∧
    ((stateS7.cancelar_orden 0 0).2.ordenes.get? 0).map (·.estado) = some .Pendiente ∧
    ((stateS7.cancelar_orden 0 0).2.ordenes.get? 0).bind (·.solicitud_cancelacion) = some 0 :=
  ⟨reach_stateS7, by decide, by decide, by decide, by decide, by decide⟩

/-- Claim C6, counterexample: in the reachable state `stateS3` no listing
has id `2^32`, so the id-based reference rejects the item list
`[(2^32, 1)]` with `PublicacionNoValida`; the code's positional lookup
truncates `2^32` to position 0 and happily prices the item with listing
0's price. -/
theorem c6_counterexample :
    Reachable stateS3 ∧
    (∀ p ∈ stateS3.publicaciones, p.id_publicacion ≠ 2 ^ 32) ∧
    stateS3.validar_precio [(2 ^ 32, 1)] 5000 = .ok 1000 ∧
    validar_precio_by_id stateS3 [(2 ^ 32, 1)] 5000 = .error .PublicacionNoValida :=
  ⟨reach_stateS3, by decide, by decide, by decide⟩

/-- Claim C9, counterexample: in the reachable state `stateS6` no order
has id `2^32` — the id is unknown — yet `marcar_orden_como_enviada(2^32)`
called by the seller does not fail with `IdDeOrdenNoValida`: the
truncating cast resolves position 0 and the call succeeds, moving order 0
to `Enviado`. -/
theorem c9_counterexample :
    Reachable stateS6 ∧
    (∀ o ∈ stateS6.ordenes, o.id_orden_compra ≠ 2 ^ 32) ∧
    (stateS6.marcar_orden_como_enviada (2 ^ 32) 0).1 = .ok () ∧
    (stateS6.marcar_orden_como_enviada (2 ^ 32) 0).1 ≠ .error .IdDeOrdenNoValida ∧
    ((stateS6.marcar_orden_como_enviada (2 ^ 32) 0).2.ordenes.get? 0).map (·.estado) =
      some .Enviado :=
  ⟨reach_stateS6, by decide, by decide, by decide, by decide⟩

/-! ### Claim C8: role widening -/

/-- Claim C8: `agregar_rol` fails `UsuarioNoExiste` for an unregistered
principal; it fails `RolYaEnUso` (leaving the state unchanged) whenever
the requested role equals the user's current role or the user already has
`Ambos`; and adding the complementary single role from `Comprador` or
from `Vendedor` succeeds and sets the role to `Ambos`. -/
theorem c8_agregar_rol_spec (s : Sistema) (rol : Rol) (id : AccountId) :
    (mget s.usuarios id = none → s.agregar_rol rol id = (.error .UsuarioNoExiste, s)) ∧
    (∀ u, mget s.usuarios id = some u → (u.rol = rol ∨ u.rol = .Ambos) →
      s.agregar_rol rol id = (.error .RolYaEnUso, s)) ∧
    (∀ u, mget s.usuarios id = some u →
      ((u.rol = .Comprador ∧ rol = .Vendedor) ∨ (u.rol = .Vendedor ∧ rol = .Comprador)) →
      s.agregar_rol rol id =
        (.ok (), { s with usuarios := mput s.usuarios id ({ u with rol := .Ambos }) })) := by
  refine ⟨?_, ?_, ?_⟩
  · intro h
    simp [Sistema.agregar_rol, h]
  · intro u hu hrol
    simp only [Sistema.agregar_rol, hu]
    have hr : u.agregar_rol rol = .error .RolYaEnUso := by
      rw [Usuario.agregar_rol.eq_def, if_pos hrol]
    rw [hr]
  · intro u hu hcase
    simp only [Sistema.agregar_rol, hu]
    have hr : u.agregar_rol rol = .ok { u with rol := .Ambos } := by
      rcases hcase with ⟨h1, h2⟩ | ⟨h1, h2⟩ <;> subst h2 <;>
        rw [Usuario.agregar_rol.eq_def, h1] <;> simp
    rw [hr]

/-- Witness for claim C8 at the concrete state `stateS2` (account 0 holds
`Vendedor`): re-adding `Vendedor` fails `RolYaEnUso`, adding `Comprador`
widens to `Ambos`, and the unregistered account 77 gets `UsuarioNoExiste`. -/
theorem c8_agregar_rol_witness :
    stateS2.agregar_rol .Vendedor 0 = (.error .RolYaEnUso, stateS2) ∧
    stateS2.agregar_rol .Comprador 0 =
      (.ok (), { stateS2 with
        usuarios := mput stateS2.usuarios 0 (⟨"a", "b", "c", 0, .Ambos, [], []⟩ : Usuario) }) ∧
    stateS2.agregar_rol .Comprador 77 = (.error .UsuarioNoExiste, stateS2) :=
  ⟨(c8_agregar_rol_spec stateS2 .Vendedor 0).2.1 ⟨"a", "b", "c", 0, .Vendedor, [], []⟩
      (by decide) (Or.inl rfl),
   (c8_agregar_rol_spec stateS2 .Comprador 0).2.2 ⟨"a", "b", "c", 0, .Vendedor, [], []⟩
      (by decide) (Or.inr ⟨rfl, rfl⟩),
   (c8_agregar_rol_spec stateS2 .Comprador 77).1 (by decide)⟩

/-! ### Claim C4: second phase of the cancellation protocol -/

/-- Claim C4 (amended): for an order that is neither `Cancelado` nor
`Recibido` and carries a prior request `some p`, `cancelar_orden` by the
same account `p` fails `CancelacionYaSolicitada` with the state
unchanged; a call by `caller ≠ p` finalizes to `Cancelado` only when `p`
is the order's buyer or seller — when `p` is neither, the call succeeds
but merely overwrites the recorded request with `some caller`, leaving
the status unchanged. -/
theorem c4_cancelar_fase2 (s : Sistema) (id_actual : Nat) (caller p : AccountId)
    (orden : OrdenCompra)
    (hord : s.ordenes.get? (id_actual % usizeMod) = some orden)
    (hnc : orden.estado ≠ .Cancelado) (hnr : orden.estado ≠ .Recibido)
    (hreq : orden.solicitud_cancelacion = some p) :
    (caller = p → s.cancelar_orden id_actual caller = (.error .CancelacionYaSolicitada, s)) ∧
    (caller ≠ p → (p = orden.id_comprador ∨ p = orden.id_vendedor) →
      s.cancelar_orden id_actual caller =
        (.ok (),
          { s with
              ordenes := s.ordenes.set (id_actual % usizeMod)
                  ({ orden with estado := .Cancelado }) })) ∧
    (caller ≠ p → p ≠ orden.id_comprador → p ≠ orden.id_vendedor →
      s.cancelar_orden id_actual caller =
        (.ok (),
          { s with
              ordenes := s.ordenes.set (id_actual % usizeMod)
                  ({ orden with solicitud_cancelacion := some caller }) })) := by
  rw [List.get?_eq_getElem?] at hord
  refine ⟨?_, ?_, ?_⟩
  · intro hc
    subst hc
    simp [Sistema.cancelar_orden, hord, hnc, hnr, hreq]
  · intro hc hp
    have hne : ¬ p = caller := fun h => hc h.symm
    simp [Sistema.cancelar_orden, hord, hnc, hnr, hreq, hne, hp]
  · intro hc hp1 hp2
    have hne : ¬ p = caller := fun h => hc h.symm
    simp [Sistema.cancelar_orden, hord, hnc, hnr, hreq, hne, hp1, hp2]

/-- Witness for claim C4 at the concrete state `stateS7`: the recorded
requester 55 is not a participant, so the seller's follow-up call only
replaces the request, and a repeated call by 55 itself fails. -/
theorem c4_cancelar_fase2_witness :
    (stateS7.cancelar_orden 0 55 = (.error .CancelacionYaSolicitada, stateS7)) ∧
    (stateS7.cancelar_orden 0 0 =
      (.ok (),
        { stateS7 with
            ordenes := stateS7.ordenes.set 0
                (⟨[(0, 1)], 0, .Pendiente, 1, 0, some 0, 1000⟩ : OrdenCompra) })) :=
  ⟨(c4_cancelar_fase2 stateS7 0 55 55 ⟨[(0, 1)], 0, .Pendiente, 1, 0, some 55, 1000⟩
      (by decide) (by decide) (by decide) (by decide)).1 rfl,
   (c4_cancelar_fase2 stateS7 0 0 55 ⟨[(0, 1)], 0, .Pendiente, 1, 0, some 55, 1000⟩
      (by decide) (by decide) (by decide) (by decide)).2.2 (by decide) (by decide) (by decide)⟩

/-! ### Claim C9: shipping/receiving lifecycle -/

/-- Claim C9 (amended): `marcar_orden_como_enviada` and
`marcar_orden_como_recibida` act on the order stored at position
`id mod 2^32` (the truncating `as usize` cast), so an unknown order id is
reported as `IdDeOrdenNoValida` exactly when that position is out of
range.  On the resolved order, shipping succeeds only for the order's
seller from `Pendiente` (moving to `Enviado`), receiving succeeds only
for the order's buyer from `Enviado` (moving to `Recibido`), and every
other caller/status combination fails `OperacionNoValida` with the state
unchanged. -/
theorem c9_lifecycle_spec (s : Sistema) (id_actual : Nat) (caller : AccountId) :
    (s.ordenes.get? (id_actual % usizeMod) = none →
      s.marcar_orden_como_enviada id_actual caller = (.error .IdDeOrdenNoValida, s) ∧
      s.marcar_orden_como_recibida id_actual caller = (.error .IdDeOrdenNoValida, s)) ∧
    (∀ orden, s.ordenes.get? (id_actual % usizeMod) = some orden →
      (orden.id_vendedor ≠ caller →
        s.marcar_orden_como_enviada id_actual caller = (.error .OperacionNoValida, s)) ∧
      (orden.id_vendedor = caller → orden.estado = .Pendiente →
        s.marcar_orden_como_enviada id_actual caller =
          (.ok (),
            { s with
                ordenes := s.ordenes.set (id_actual % usizeMod)
                    ({ orden with estado := .Enviado }) })) ∧
      (orden.id_vendedor = caller → orden.estado ≠ .Pendiente →
        s.marcar_orden_como_enviada id_actual caller = (.error .OperacionNoValida, s)) ∧
      (orden.id_comprador ≠ caller →
        s.marcar_orden_como_recibida id_actual caller = (.error .OperacionNoValida, s)) ∧
      (orden.id_comprador = caller → orden.estado = .Enviado →
        s.marcar_orden_como_recibida id_actual caller =
          (.ok (),
            { s with
                ordenes := s.ordenes.set (id_actual % usizeMod)
                    ({ orden with estado := .Recibido }) })) ∧
      (orden.id_comprador = caller → orden.estado ≠ .Enviado →
        s.marcar_orden_como_recibida id_actual caller = (.error .OperacionNoValida, s))) := by
  constructor
  · intro h
    rw [List.get?_eq_getElem?] at h
    constructor
    · simp [Sistema.marcar_orden_como_enviada, h]
    · simp [Sistema.marcar_orden_como_recibida, h]
  · intro orden hord
    rw [List.get?_eq_getElem?] at hord
    refine ⟨?_, ?_, ?_, ?_, ?_, ?_⟩
    · intro hv
      simp [Sistema.marcar_orden_como_enviada, hord, hv]
    · intro hv hst
      simp [Sistema.marcar_orden_como_enviada, hord, hv, hst]
    · intro hv hst
      cases h : orden.estado <;>
        simp_all [Sistema.marcar_orden_como_enviada, hord, hv]
    · intro hc
      simp [Sistema.marcar_orden_como_recibida, hord, hc]
    · intro hc hst
      simp [Sistema.marcar_orden_como_recibida, hord, hc, hst]
    · intro hc hst
      cases h : orden.estado <;>
        simp_all [Sistema.marcar_orden_como_recibida, hord, hc]

/-- Witness for claim C9 at the concrete state `stateS6`: the seller
ships pending order 0, the buyer cannot (wrong caller), and the
out-of-range position 7 yields `IdDeOrdenNoValida`. -/
theorem c9_lifecycle_witness :
    (stateS6.marcar_orden_como_enviada 0 0 =
      (.ok (),
        { stateS6 with
            ordenes := stateS6.ordenes.set 0
                (⟨[(0, 1)], 0, .Enviado, 1, 0, none, 1000⟩ : OrdenCompra) })) ∧
    (stateS6.marcar_orden_como_recibida 0 0 = (.error .OperacionNoValida, stateS6)) ∧
    (stateS6.marcar_orden_como_enviada 7 3 = (.error .IdDeOrdenNoValida, stateS6)) :=
  ⟨((c9_lifecycle_spec stateS6 0 0).2 ⟨[(0, 1)], 0, .Pendiente, 1, 0, none, 1000⟩
      (by decide)).2.1 rfl rfl,
   ((c9_lifecycle_spec stateS6 0 0).2 ⟨[(0, 1)], 0, .Pendiente, 1, 0, none, 1000⟩
      (by decide)).2.2.2.1 (by decide),
   ((c9_lifecycle_spec stateS6 7 3).1 (by decide)).1⟩

/-! ### Positional-id toolkit -/

theorem actualizar_stock_id (p : Publicacion) (c : Nat) :
    ((p.actualizar_stock c).2).id_publicacion = p.id_publicacion := by
  unfold Publicacion.actualizar_stock
  split <;> rfl

theorem actualizar_stock_snd (p : Publicacion) (c : Nat) :
    (p.actualizar_stock c).2 = if c ≤ p.stock then { p with stock := p.stock - c } else p := by
  unfold Publicacion.actualizar_stock
  split <;> simp_all

theorem find_id_shift (l : List Publicacion) (off j : Nat)
    (hl : ∀ i p, l.get? i = some p → p.id_publicacion = off + i) :
    l.find? (fun x => x.id_publicacion == off + j) = l.get? j := by
  induction l generalizing off j with
  | nil => rfl
  | cons a t ih =>
    have ha : a.id_publicacion = off := by simpa using hl 0 a rfl
    cases j with
    | zero =>
      rw [List.find?_cons_of_pos]
      · rfl
      · simp [ha]
    | succ j' =>
      have hne : ¬ ((fun x => x.id_publicacion == off + (j' + 1)) a = true) := by
        simp only [ha, beq_iff_eq]
        omega
      rw [List.find?_cons_of_neg t hne]
      have hoff : off + (j' + 1) = (off + 1) + j' := by omega
      simp only [hoff]
      have hget : (a :: t).get? (j' + 1) = t.get? j' := rfl
      rw [hget]
      exact ih (off + 1) j' (fun i p hp => by
        have := hl (i + 1) p (by simpa using hp)
        omega)

theorem find_id_eq_get? (l : List Publicacion) (hl : PosIds l) (j : Nat) :
    l.find? (fun x => x.id_publicacion == j) = l.get? j := by
  have h := find_id_shift l 0 j (fun i p hp => by rw [Nat.zero_add]; exact hl i p hp)
  simpa using h

theorem listPosition_shift (l : List Publicacion) (off j : Nat)
    (hl : ∀ i p, l.get? i = some p → p.id_publicacion = off + i) :
    listPosition (fun x => x.id_publicacion == off + j) l =
      if j < l.length then some j else none := by
  induction l generalizing off j with
  | nil => simp [listPosition]
  | cons a t ih =>
    have ha : a.id_publicacion = off := by simpa using hl 0 a rfl
    cases j with
    | zero =>
      simp [listPosition, ha]
    | succ j' =>
      have hoff : off + (j' + 1) = (off + 1) + j' := by omega
      have hne : (a.id_publicacion == (off + 1) + j') = false := by
        simp only [ha, beq_eq_false_iff_ne, ne_eq]
        omega
      simp only [listPosition, hoff, hne, Bool.false_eq_true, if_false]
      rw [ih (off + 1) j' (fun i p hp => by
        have := hl (i + 1) p (by simpa using hp)
        omega)]
      by_cases hj : j' < t.length
      · simp [hj, Nat.succ_lt_succ_iff]
      · simp [hj, Nat.succ_lt_succ_iff]

theorem listPosition_eq (l : List Publicacion) (hl : PosIds l) (j : Nat) :
    listPosition (fun x => x.id_publicacion == j) l =
      if j < l.length then some j else none := by
  have h := listPosition_shift l 0 j (fun i p hp => by rw [Nat.zero_add]; exact hl i p hp)
  simpa using h

theorem idsAt_push {α : Type} (idf : α → Nat) {l : List α} {p : α}
    (hl : ∀ i q, l.get? i = some q → idf q = i) (hp : idf p = l.length) :
    ∀ i q, (l ++ [p]).get? i = some q → idf q = i := by
  intro i q hq
  rcases Nat.lt_or_ge i l.length with hlt | hge
  · rw [List.get?_append hlt] at hq
    exact hl i q hq
  · have hlen : i < l.length + 1 := by
      have h := (List.get?_eq_some.mp hq).1
      simpa using h
    have hi : i = l.length := by omega
    subst hi
    rw [List.get?_concat_length] at hq
    injection hq with h
    rw [← h]
    exact hp

theorem idsAt_set {α : Type} (idf : α → Nat) {l : List α} {n : Nat} {o' : α}
    (hl : ∀ i q, l.get? i = some q → idf q = i) (ho' : idf o' = n) :
    ∀ i q, (l.set n o').get? i = some q → idf q = i := by
  intro i q hq
  by_cases hin : n = i
  · subst hin
    rw [List.get?_set_eq] at hq
    cases hg : l.get? n with
    | none => rw [hg] at hq; cases hq
    | some r =>
        rw [hg] at hq
        injection hq with h
        rw [← h]
        exact ho'
  · rw [List.get?_set_ne o' l hin] at hq
    exact hl i q hq

theorem idsAt_of_map_id {α : Type} (idf : α → Nat) {l l' : List α}
    (hl : ∀ i q, l.get? i = some q → idf q = i)
    (hmap : ∀ i, (l'.get? i).map idf = (l.get? i).map idf) :
    ∀ i q, l'.get? i = some q → idf q = i := by
  intro i q hq
  have h := hmap i
  rw [hq] at h
  cases hg : l.get? i with
  | none => rw [hg] at h; cases h
  | some r =>
      rw [hg] at h
      simp only [Option.map_some'] at h
      injection h with h2
      rw [h2]
      exact hl i r hg

/-! ### Field-preservation lemmas for the operations -/

theorem posOk_of_eq {s s' : Sistema} (h : PosOk s)
    (hp : s'.publicaciones = s.publicaciones) (ho : s'.ordenes = s.ordenes)
    (hc1 : s'.proximo_id_publicacion = s.proximo_id_publicacion)
    (hc2 : s'.proximo_id_orden = s.proximo_id_orden) : PosOk s' := by
  obtain ⟨h1, h2, h3, h4⟩ := h
  refine ⟨?_, ?_, ?_, ?_⟩
  · rw [show s'.publicaciones = s.publicaciones from hp]; exact h1
  · rw [show s'.ordenes = s.ordenes from ho]; exact h2
  · rw [hp, hc1]; exact h3
  · rw [ho, hc2]; exact h4

theorem registrar_usuario_fields (s : Sistema) (n a e : String) (r : Rol) (i : AccountId) :
    ((s.registrar_usuario n a e r i).2).publicaciones = s.publicaciones ∧
    ((s.registrar_usuario n a e r i).2).ordenes = s.ordenes ∧
    ((s.registrar_usuario n a e r i).2).proximo_id_publicacion = s.proximo_id_publicacion ∧
    ((s.registrar_usuario n a e r i).2).proximo_id_orden = s.proximo_id_orden := by
  unfold Sistema.registrar_usuario
  split <;> exact ⟨rfl, rfl, rfl, rfl⟩

theorem agregar_rol_fields (s : Sistema) (r : Rol) (i : AccountId) :
    ((s.agregar_rol r i).2).publicaciones = s.publicaciones ∧
    ((s.agregar_rol r i).2).ordenes = s.ordenes ∧
    ((s.agregar_rol r i).2).proximo_id_publicacion = s.proximo_id_publicacion ∧
    ((s.agregar_rol r i).2).proximo_id_orden = s.proximo_id_orden := by
  unfold Sistema.agregar_rol
  cases mget s.usuarios i with
  | none => exact ⟨rfl, rfl, rfl, rfl⟩
  | some u =>
      dsimp only
      cases u.agregar_rol r with
      | ok u' => exact ⟨rfl, rfl, rfl, rfl⟩
      | error e => exact ⟨rfl, rfl, rfl, rfl⟩

theorem generar_id_producto_fields (s : Sistema) :
    ((s.generar_id_producto).2).publicaciones = s.publicaciones ∧
    ((s.generar_id_producto).2).ordenes = s.ordenes ∧
    ((s.generar_id_producto).2).proximo_id_publicacion = s.proximo_id_publicacion ∧
    ((s.generar_id_producto).2).proximo_id_orden = s.proximo_id_orden := by
  unfold Sistema.generar_id_producto
  split <;> exact ⟨rfl, rfl, rfl, rfl⟩

theorem nuevo_producto_fields (s : Sistema) (n d : String) (c : Categoria)
    (caller : AccountId) :
    ((s.nuevo_producto n d c caller).2).publicaciones = s.publicaciones ∧
    ((s.nuevo_producto n d c caller).2).ordenes = s.ordenes ∧
    ((s.nuevo_producto n d c caller).2).proximo_id_publicacion = s.proximo_id_publicacion ∧
    ((s.nuevo_producto n d c caller).2).proximo_id_orden = s.proximo_id_orden := by
  have g := generar_id_producto_fields s
  unfold Sistema.nuevo_producto
  cases s.existe_usuario caller with
  | error e => exact ⟨rfl, rfl, rfl, rfl⟩
  | ok b =>
      dsimp only
      cases s.es_vendedor caller with
      | error e =>
          dsimp only
          cases hgen : s.generar_id_producto with
          | mk res s2 =>
              rw [hgen] at g
              cases res with
              | ok v => exact ⟨g.1, g.2.1, g.2.2.1, g.2.2.2⟩
              | error e2 => exact ⟨g.1, g.2.1, g.2.2.1, g.2.2.2⟩
      | ok bb =>
          cases bb with
          | false => exact ⟨rfl, rfl, rfl, rfl⟩
          | true =>
              dsimp only
              cases hgen : s.generar_id_producto with
              | mk res s2 =>
                  rw [hgen] at g
                  cases res with
                  | ok v => exact ⟨g.1, g.2.1, g.2.2.1, g.2.2.2⟩
                  | error e2 => exact ⟨g.1, g.2.1, g.2.2.1, g.2.2.2⟩

theorem agregar_orden_usuario_fields (s : Sistema) (uid : AccountId) (oid : Nat) :
    ((s.agregar_orden_usuario uid oid).2).publicaciones = s.publicaciones ∧
    ((s.agregar_orden_usuario uid oid).2).ordenes = s.ordenes ∧
    ((s.agregar_orden_usuario uid oid).2).proximo_id_publicacion = s.proximo_id_publicacion ∧
    ((s.agregar_orden_usuario uid oid).2).proximo_id_orden = s.proximo_id_orden := by
  unfold Sistema.agregar_orden_usuario
  cases mget s.usuarios uid with
  | none => exact ⟨rfl, rfl, rfl, rfl⟩
  | some u => exact ⟨rfl, rfl, rfl, rfl⟩

theorem actualizar_stock_de_orden_fields :
    ∀ (lista : List (Nat × Nat)) (s : Sistema),
      ((s.actualizar_stock_de_orden lista).2).usuarios = s.usuarios ∧
      ((s.actualizar_stock_de_orden lista).2).productos = s.productos ∧
      ((s.actualizar_stock_de_orden lista).2).ordenes = s.ordenes ∧
      ((s.actualizar_stock_de_orden lista).2).proximo_id_publicacion =
        s.proximo_id_publicacion ∧
      ((s.actualizar_stock_de_orden lista).2).proximo_id_producto = s.proximo_id_producto ∧
      ((s.actualizar_stock_de_orden lista).2).proximo_id_orden = s.proximo_id_orden ∧
      ((s.actualizar_stock_de_orden lista).2).publicaciones.length =
        s.publicaciones.length ∧
      (∀ i, (((s.actualizar_stock_de_orden lista).2).publicaciones.get? i).map
          (·.id_publicacion) =
        (s.publicaciones.get? i).map (·.id_publicacion)) := by
  intro lista
  induction lista with
  | nil => exact fun s => ⟨rfl, rfl, rfl, rfl, rfl, rfl, rfl, fun i => rfl⟩
  | cons hd tl ih =>
      intro s
      obtain ⟨id_publi, cant⟩ := hd
      unfold Sistema.actualizar_stock_de_orden
      cases hpos : listPosition (fun x => x.id_publicacion == id_publi) s.publicaciones with
      | none => exact ih s
      | some pos =>
          dsimp only
          cases hget : s.publicaciones.get? pos with
          | none => exact ih s
          | some p =>
              have hs' := ih
                { s with publicaciones := s.publicaciones.set pos (p.actualizar_stock cant).2 }
              obtain ⟨e1, e2, e3, e4, e5, e6, e7, e8⟩ := hs'
              dsimp only
              refine ⟨e1, e2, e3, e4, e5, e6, ?_, ?_⟩
              · rw [e7]
                exact List.length_set s.publicaciones pos (p.actualizar_stock cant).2
              · intro i
                rw [e8 i]
                by_cases hpi : pos = i
                · subst hpi
                  rw [List.get?_set_eq, hget]
                  simp [actualizar_stock_id]
                · rw [List.get?_set_ne _ s.publicaciones hpi]

/-! ### Preservation of the positional-id invariant -/

theorem generar_id_publicacion_spec (s : Sistema) :
    (s.proximo_id_publicacion < u128Max ∧
      s.generar_id_publicacion =
        (.ok s.proximo_id_publicacion,
          { s with proximo_id_publicacion := s.proximo_id_publicacion + 1 })) ∨
    (¬ s.proximo_id_publicacion < u128Max ∧
      s.generar_id_publicacion = (.error .PublicacionesLleno, s)) := by
  unfold Sistema.generar_id_publicacion
  by_cases h : s.proximo_id_publicacion < u128Max
  · exact Or.inl ⟨h, by rw [if_pos h]⟩
  · exact Or.inr ⟨h, by rw [if_neg h]⟩

theorem generar_id_orden_spec (s : Sistema) :
    (s.proximo_id_orden < u128Max ∧
      s.generar_id_orden =
        (.ok s.proximo_id_orden,
          { s with proximo_id_orden := s.proximo_id_orden + 1 })) ∨
    (¬ s.proximo_id_orden < u128Max ∧
      s.generar_id_orden = (.error .PublicacionesLleno, s)) := by
  unfold Sistema.generar_id_orden
  by_cases h : s.proximo_id_orden < u128Max
  · exact Or.inl ⟨h, by rw [if_pos h]⟩
  · exact Or.inr ⟨h, by rw [if_neg h]⟩

theorem crear_publicacion_posOk {s : Sistema} {idp pr st : Nat} {caller : AccountId}
    {out : Except ErrorSistema Unit × Sistema} (h : PosOk s)
    (hc : s.crear_publicacion idp pr st caller = some out) : PosOk out.2 := by
  obtain ⟨h1, h2, h3, h4⟩ := h
  unfold Sistema.crear_publicacion at hc
  split at hc
  · injection hc with hc2
    subst hc2
    exact ⟨h1, h2, h3, h4⟩
  · split at hc
    · injection hc with hc2
      subst hc2
      exact ⟨h1, h2, h3, h4⟩
    · split at hc
      · injection hc with hc2
        subst hc2
        exact ⟨h1, h2, h3, h4⟩
      · cases hm : mget s.usuarios caller with
        | none => rw [hm] at hc; cases hc
        | some usuario =>
            rw [hm] at hc
            dsimp only at hc
            rcases generar_id_publicacion_spec s with ⟨hlt, hgen⟩ | ⟨hge, hgen⟩ <;>
              rw [hgen] at hc <;> dsimp only at hc
            · -- allocation succeeded: the listing is appended
              injection hc with hc2
              subst hc2
              refine ⟨?_, h2, ?_, h4⟩
              · exact idsAt_push _ h1 h3
              · simp [h3]
            · injection hc with hc2
              subst hc2
              exact ⟨h1, h2, h3, h4⟩

theorem marcar_enviada_posOk (s : Sistema) (ida : Nat) (caller : AccountId)
    (h : PosOk s) : PosOk ((s.marcar_orden_como_enviada ida caller).2) := by
  obtain ⟨h1, h2, h3, h4⟩ := h
  unfold Sistema.marcar_orden_como_enviada
  cases hg : s.ordenes.get? (ida % usizeMod) with
  | none => exact ⟨h1, h2, h3, h4⟩
  | some orden =>
      dsimp only
      by_cases hv : orden.id_vendedor ≠ caller
      · rw [if_pos hv]
        exact ⟨h1, h2, h3, h4⟩
      · rw [if_neg hv]
        cases orden.estado with
        | Pendiente =>
            refine ⟨h1, ?_, h3, ?_⟩
            · exact idsAt_set _ h2 (h2 _ orden hg)
            · simp [h4]
        | Enviado => exact ⟨h1, h2, h3, h4⟩
        | Recibido => exact ⟨h1, h2, h3, h4⟩
        | Cancelado => exact ⟨h1, h2, h3, h4⟩

theorem marcar_recibida_posOk (s : Sistema) (ida : Nat) (caller : AccountId)
    (h : PosOk s) : PosOk ((s.marcar_orden_como_recibida ida caller).2) := by
  obtain ⟨h1, h2, h3, h4⟩ := h
  unfold Sistema.marcar_orden_como_recibida
  cases hg : s.ordenes.get? (ida % usizeMod) with
  | none => exact ⟨h1, h2, h3, h4⟩
  | some orden =>
      dsimp only
      by_cases hv : orden.id_comprador ≠ caller
      · rw [if_pos hv]
        exact ⟨h1, h2, h3, h4⟩
      · rw [if_neg hv]
        cases orden.estado with
        | Enviado =>
            refine ⟨h1, ?_, h3, ?_⟩
            · exact idsAt_set _ h2 (h2 _ orden hg)
            · simp [h4]
        | Pendiente => exact ⟨h1, h2, h3, h4⟩
        | Recibido => exact ⟨h1, h2, h3, h4⟩
        | Cancelado => exact ⟨h1, h2, h3, h4⟩

theorem cancelar_posOk (s : Sistema) (ida : Nat) (caller : AccountId)
    (h : PosOk s) : PosOk ((s.cancelar_orden ida caller).2) := by
  obtain ⟨h1, h2, h3, h4⟩ := h
  unfold Sistema.cancelar_orden
  cases hg : s.ordenes.get? (ida % usizeMod) with
  | none => exact ⟨h1, h2, h3, h4⟩
  | some orden =>
      dsimp only
      by_cases hcn : orden.estado = .Cancelado
      · rw [if_pos hcn]
        exact ⟨h1, h2, h3, h4⟩
      · rw [if_neg hcn]
        by_cases hre : orden.estado = .Recibido
        · rw [if_pos hre]
          exact ⟨h1, h2, h3, h4⟩
        · rw [if_neg hre]
          cases orden.solicitud_cancelacion with
          | none =>
              refine ⟨h1, ?_, h3, ?_⟩
              · exact idsAt_set _ h2 (h2 _ orden hg)
              · simp [h4]
          | some prev =>
              dsimp only
              by_cases hpc : prev = caller
              · rw [if_pos hpc]
                exact ⟨h1, h2, h3, h4⟩
              · rw [if_neg hpc]
                by_cases hpart : prev = orden.id_comprador ∨ prev = orden.id_vendedor
                · rw [if_pos hpart]
                  refine ⟨h1, ?_, h3, ?_⟩
                  · exact idsAt_set _ h2 (h2 _ orden hg)
                  · simp [h4]
                · rw [if_neg hpart]
                  refine ⟨h1, ?_, h3, ?_⟩
                  · exact idsAt_set _ h2 (h2 _ orden hg)
                  · simp [h4]

theorem generar_orden_posOk (s : Sistema) (lista : List (Nat × Nat)) (din : Nat)
    (caller : AccountId) (h : PosOk s) :
    PosOk ((s.generar_orden_compra lista din caller).2) := by
  obtain ⟨h1, h2, h3, h4⟩ := h
  unfold Sistema.generar_orden_compra
  cases hc1 : s.es_comprador caller with
  | error e => exact ⟨h1, h2, h3, h4⟩
  | ok b =>
      dsimp only
      cases b with
      | false => exact ⟨h1, h2, h3, h4⟩
      | true =>
          rw [if_neg (by decide : ¬ (true = false))]
          cases lista with
          | nil => exact ⟨h1, h2, h3, h4⟩
          | cons hd tl =>
              obtain ⟨id0, q0⟩ := hd
              dsimp only
              cases hf : s.publicaciones.find? (fun x => x.id_publicacion == id0) with
              | none => exact ⟨h1, h2, h3, h4⟩
              | some publi =>
                  dsimp only
                  by_cases hvc : publi.id_publicador = caller
                  · rw [if_pos hvc]
                    exact ⟨h1, h2, h3, h4⟩
                  · rw [if_neg hvc]
                    cases s.validar_orden ((id0, q0) :: tl) publi.id_publicador with
                    | error e => exact ⟨h1, h2, h3, h4⟩
                    | ok u =>
                        dsimp only
                        cases s.validar_precio ((id0, q0) :: tl) din with
                        | error e => exact ⟨h1, h2, h3, h4⟩
                        | ok monto =>
                            dsimp only
                            obtain ⟨a1, a2, a3, a4, a5, a6, a7, a8⟩ :=
                              actualizar_stock_de_orden_fields ((id0, q0) :: tl) s
                            set r2 := (s.actualizar_stock_de_orden ((id0, q0) :: tl)).2 with hr2
                            have hposr2 : PosOk r2 :=
                              ⟨idsAt_of_map_id _ h1 a8, by rw [a3]; exact h2,
                               by rw [a4, a7]; exact h3, by rw [a6, a3]; exact h4⟩
                            rcases generar_id_orden_spec r2 with ⟨hlt, hgen⟩ | ⟨hge, hgen⟩ <;>
                              rw [hgen] <;> dsimp only
                            · -- order id allocated: the order is appended
                              obtain ⟨q1, q2, q3, q4⟩ := hposr2
                              have hpush : PosOk
                                  { r2 with
                                      proximo_id_orden := r2.proximo_id_orden + 1,
                                      ordenes := r2.ordenes ++
                                        [⟨(s.actualizar_stock_de_orden ((id0, q0) :: tl)).1,
                                          r2.proximo_id_orden, .Pendiente, caller,
                                          publi.id_publicador, none, monto⟩] } := by
                                refine ⟨q1, ?_, q3, ?_⟩
                                · exact idsAt_push _ q2 q4
                                · simp [q4]
                              obtain ⟨p1, p2, p3, p4⟩ := hpush
                              obtain ⟨b1, b2, b3, b4⟩ := agregar_orden_usuario_fields
                                { r2 with
                                    proximo_id_orden := r2.proximo_id_orden + 1,
                                    ordenes := r2.ordenes ++
                                      [⟨(s.actualizar_stock_de_orden ((id0, q0) :: tl)).1,
                                        r2.proximo_id_orden, .Pendiente, caller,
                                        publi.id_publicador, none, monto⟩] }
                                caller r2.proximo_id_orden
                              cases hA : Sistema.agregar_orden_usuario
                                  { r2 with
                                      proximo_id_orden := r2.proximo_id_orden + 1,
                                      ordenes := r2.ordenes ++
                                        [⟨(s.actualizar_stock_de_orden ((id0, q0) :: tl)).1,
                                          r2.proximo_id_orden, .Pendiente, caller,
                                          publi.id_publicador, none, monto⟩] }
                                  caller r2.proximo_id_orden with
                              | mk resA s4 =>
                                  rw [hA] at b1 b2 b3 b4
                                  have hposs4 : PosOk s4 := by
                                    refine ⟨?_, ?_, ?_, ?_⟩
                                    · rw [show s4.publicaciones = _ from b1]; exact p1
                                    · rw [show s4.ordenes = _ from b2]; exact p2
                                    · rw [b1, b3]; exact p3
                                    · rw [b2, b4]; exact p4
                                  cases resA with
                                  | error e => exact hposs4
                                  | ok uu =>
                                      dsimp only
                                      obtain ⟨pp1, pp2, pp3, pp4⟩ := hposs4
                                      obtain ⟨c1, c2, c3, c4⟩ :=
                                        agregar_orden_usuario_fields s4 publi.id_publicador
                                          r2.proximo_id_orden
                                      cases hB : s4.agregar_orden_usuario publi.id_publicador
                                          r2.proximo_id_orden with
                                      | mk resB s5 =>
                                          rw [hB] at c1 c2 c3 c4
                                          have hposs5 : PosOk s5 := by
                                            refine ⟨?_, ?_, ?_, ?_⟩
                                            · rw [show s5.publicaciones = _ from c1]; exact pp1
                                            · rw [show s5.ordenes = _ from c2]; exact pp2
                                            · rw [c1, c3]; exact pp3
                                            · rw [c2, c4]; exact pp4
                                          cases resB with
                                          | error e => exact hposs5
                                          | ok uu2 => exact hposs5
                            · exact hposr2

theorem posOk_new : PosOk Sistema.new := by
  refine ⟨?_, ?_, rfl, rfl⟩ <;> intro i q hq <;> cases hq

theorem posOk_step {s s' : Sistema} (h : PosOk s) (hs : Step s s') : PosOk s' := by
  cases hs with
  | registrar n a e r c =>
      obtain ⟨f1, f2, f3, f4⟩ := registrar_usuario_fields s n a e r c
      exact posOk_of_eq h f1 f2 f3 f4
  | agregarRol r c =>
      obtain ⟨f1, f2, f3, f4⟩ := agregar_rol_fields s r c
      exact posOk_of_eq h f1 f2 f3 f4
  | nuevoProducto n d cat c =>
      obtain ⟨f1, f2, f3, f4⟩ := nuevo_producto_fields s n d cat c
      exact posOk_of_eq h f1 f2 f3 f4
  | crearPublicacion idp pr st c out hid hp hst hc =>
      exact crear_publicacion_posOk h hc
  | generarOrden lista din c hl hd =>
      exact generar_orden_posOk s lista din c h
  | marcarEnviada ida c hid =>
      exact marcar_enviada_posOk s ida c h
  | marcarRecibida ida c hid =>
      exact marcar_recibida_posOk s ida c h
  | cancelar ida c hid =>
      exact cancelar_posOk s ida c h

theorem reachable_posOk {s : Sistema} (h : Reachable s) : PosOk s := by
  induction h with
  | init => exact posOk_new
  | step h1 h2 ih => exact posOk_step ih h2

/-- Claim C10: in every reachable state the listing stored at position `i`
of the global listing sequence has `id_publicacion = i`, the order stored
at position `i` of the order sequence has `id_orden_compra = i`, and the
two allocation counters equal the respective sequence lengths — i.e. every
public operation preserves the positional-id invariant `PosOk`. -/
theorem c10_positional_invariant (s : Sistema) (h : Reachable s) : PosOk s :=
  reachable_posOk h

/-- Witness for claim C10 at the concrete reachable state `stateS6`. -/
theorem c10_positional_invariant_witness : PosOk stateS6 :=
  c10_positional_invariant stateS6 reach_stateS6

/-! ### Validation success lemmas -/

theorem validar_orden_desde_ok (s : Sistema) (v : AccountId) :
    ∀ (lista : List (Nat × Nat)) (vistos : List Nat),
      s.validar_orden_desde v lista vistos = .ok () →
      (∀ pr ∈ lista, pr.1 ∉ vistos ∧ pr.2 ≠ 0 ∧
        ∃ p, s.publicaciones.find? (fun x => x.id_publicacion == pr.1) = some p ∧
          p.id_publicador = v ∧ pr.2 ≤ p.stock) ∧
      (lista.map Prod.fst).Nodup := by
  intro lista
  induction lista with
  | nil =>
      intro vistos hok
      exact ⟨fun pr h => absurd h (List.not_mem_nil pr), List.nodup_nil⟩
  | cons hd rest ih =>
      intro vistos hok
      obtain ⟨id, cant⟩ := hd
      unfold Sistema.validar_orden_desde at hok
      split at hok
      · cases hok
      · split at hok
        · cases hok
        · rename_i hnotmem hcant
          cases hf : s.publicaciones.find? (fun x => x.id_publicacion == id) with
          | none => rw [hf] at hok; cases hok
          | some p =>
              rw [hf] at hok
              dsimp only at hok
              split at hok
              · cases hok
              · split at hok
                · cases hok
                · rename_i hv hstock
                  obtain ⟨hrest, hnd⟩ := ih (id :: vistos) hok
                  constructor
                  · intro pr hpr
                    rcases List.mem_cons.mp hpr with heq | hmem
                    · subst heq
                      refine ⟨hnotmem, hcant, p, hf, ?_, ?_⟩
                      · by_contra hcon
                        exact hv hcon
                      · by_contra hcon
                        apply hstock
                        simp [Publicacion.tiene_stock_suficiente]
                        omega
                    · obtain ⟨hni, rest2⟩ := hrest pr hmem
                      exact ⟨fun hx => hni (List.mem_cons_of_mem _ hx), rest2⟩
                  · rw [List.map_cons]
                    refine List.nodup_cons.mpr ⟨?_, hnd⟩
                    intro hmem
                    obtain ⟨pr, hpr, hpr1⟩ := List.mem_map.mp hmem
                    obtain ⟨hni, _⟩ := hrest pr hpr
                    exact hni (by rw [hpr1]; exact List.mem_cons_self id vistos)

theorem generar_orden_own_err (s : Sistema) (lista : List (Nat × Nat)) (din : Nat)
    (caller : AccountId) (h1 : PosIds s.publicaciones)
    (hown : ∃ pr ∈ lista, ∃ p, s.publicaciones.get? pr.1 = some p ∧
      p.id_publicador = caller) :
    ∃ e, s.generar_orden_compra lista din caller = (.error e, s) := by
  unfold Sistema.generar_orden_compra
  cases hc1 : s.es_comprador caller with
  | error e => exact ⟨e, rfl⟩
  | ok b =>
      dsimp only
      cases b with
      | false => exact ⟨.UsuarioNoEsComprador, rfl⟩
      | true =>
          rw [if_neg (by decide : ¬ (true = false))]
          cases lista with
          | nil => exact ⟨.CompraSinItems, rfl⟩
          | cons hd tl =>
              obtain ⟨id0, q0⟩ := hd
              dsimp only
              cases hf : s.publicaciones.find? (fun x => x.id_publicacion == id0) with
              | none => exact ⟨.PublicacionNoValida, rfl⟩
              | some publi =>
                  dsimp only
                  by_cases hvc : publi.id_publicador = caller
                  · rw [if_pos hvc]
                    exact ⟨.NoPuedeComprarPublicacionPropia, rfl⟩
                  · rw [if_neg hvc]
                    cases hvo : s.validar_orden ((id0, q0) :: tl) publi.id_publicador with
                    | error e => exact ⟨e, rfl⟩
                    | ok u =>
                        exfalso
                        obtain ⟨pr, hmem, p, hget, hpub⟩ := hown
                        obtain ⟨hall, _⟩ :=
                          validar_orden_desde_ok s publi.id_publicador ((id0, q0) :: tl) [] hvo
                        obtain ⟨_, _, p2, hf2, hp2, _⟩ := hall pr hmem
                        rw [find_id_eq_get? s.publicaciones h1 pr.1, hget] at hf2
                        injection hf2 with hf3
                        exact hvc (by rw [← hp2, ← hf3]; exact hpub)

/-- Claim C3 (amended): whenever the caller is the seller of some listing
whose id appears among the requested items of a reachable state, the
purchase always fails — no order is created and the state is unchanged —
and the error is specifically `NoPuedeComprarPublicacionPropia` when the
listing resolved from the first item has the caller as its seller (when
the caller's own listing appears only later, the failure surfaces as a
different error such as `VendedorDistinto`). -/
theorem c3_own_listing_always_fails (s : Sistema) (lista : List (Nat × Nat))
    (din : Nat) (caller : AccountId) (hre : Reachable s)
    (hown : ∃ pr ∈ lista, ∃ p, s.publicaciones.get? pr.1 = some p ∧
      p.id_publicador = caller) :
    (∀ o s', s.generar_orden_compra lista din caller ≠ (.ok o, s')) ∧
    (s.generar_orden_compra lista din caller).2 = s ∧
    (∀ id0 q0 rest publi, lista = (id0, q0) :: rest →
      s.publicaciones.find? (fun x => x.id_publicacion == id0) = some publi →
      publi.id_publicador = caller → s.es_comprador caller = .ok true →
      s.generar_orden_compra lista din caller =
        (.error .NoPuedeComprarPublicacionPropia, s)) := by
  obtain ⟨e, he⟩ := generar_orden_own_err s lista din caller (reachable_posOk hre).1 hown
  refine ⟨?_, ?_, ?_⟩
  · intro o s' hcon
    rw [he] at hcon
    simp [Prod.ext_iff] at hcon
  · rw [he]
  · intro id0 q0 rest publi hla hf hcal hcomp
    subst hla
    unfold Sistema.generar_orden_compra
    rw [hcomp]
    dsimp only
    rw [if_neg (by decide : ¬ (true = false))]
    rw [hf]
    dsimp only
    rw [if_pos hcal]

/-- Witness for claim C3 at the concrete state `stateS5` with the item
list `[(0,1), (1,1)]`: account 1 owns listing 1, so its purchase leaves
the state unchanged. -/
theorem c3_own_listing_always_fails_witness :
    (stateS5.generar_orden_compra [(0, 1), (1, 1)] 100 1).2 = stateS5 :=
  (c3_own_listing_always_fails stateS5 [(0, 1), (1, 1)] 100 1 reach_stateS5
    ⟨(1, 1), by decide, ⟨1, 0, 1, 7, 5, true⟩, by decide, by decide⟩).2.1

theorem validar_precio_desde_eq (s : Sistema) (h1 : PosIds s.publicaciones) (din : Nat) :
    ∀ (lista : List (Nat × Nat)) (acc : Nat), (∀ pr ∈ lista, pr.1 < usizeMod) →
      s.validar_precio_desde din lista acc = validar_precio_by_id_desde s din lista acc := by
  intro lista
  induction lista with
  | nil => intro acc hh; rfl
  | cons hd tl ih =>
      intro acc hh
      obtain ⟨id, cant⟩ := hd
      have hid : id < usizeMod := hh (id, cant) (List.mem_cons_self _ _)
      unfold Sistema.validar_precio_desde validar_precio_by_id_desde
      rw [find_id_eq_get? s.publicaciones h1 id, Nat.mod_eq_of_lt hid]
      cases s.publicaciones.get? id with
      | none => rfl
      | some p =>
          dsimp only
          by_cases hA : p.precio * cant > u32Max
          · rw [if_pos hA, if_pos hA]
          · rw [if_neg hA, if_neg hA]
            by_cases hB : acc + p.precio * cant > u32Max
            · rw [if_pos hB, if_pos hB]
            · rw [if_neg hB, if_neg hB]
              exact ih (acc + p.precio * cant)
                (fun pr hpr => hh pr (List.mem_cons_of_mem _ hpr))

/-- Claim C6 (amended): for every reachable state and every item list all
of whose listing ids are below `2^32` (so that the `u128 → usize` cast is
lossless), the code's positional price validation agrees with the id-based
reference lookup; the positional-id invariant of reachable states is what
makes the position coincide with the id. -/
theorem c6_price_lookup_equiv (s : Sistema) (lista : List (Nat × Nat)) (din : Nat)
    (hre : Reachable s) (hids : ∀ pr ∈ lista, pr.1 < usizeMod) :
    s.validar_precio lista din = validar_precio_by_id s lista din :=
  validar_precio_desde_eq s (reachable_posOk hre).1 din lista 0 hids

/-- Witness for claim C6 at the concrete state `stateS3` with the item
list `[(0, 2)]`. -/
theorem c6_price_lookup_equiv_witness :
    stateS3.validar_precio [(0, 2)] 5000 = validar_precio_by_id stateS3 [(0, 2)] 5000 :=
  c6_price_lookup_equiv stateS3 [(0, 2)] 5000 reach_stateS3 (by decide)

theorem validar_precio_desde_ok (s : Sistema) (din : Nat) :
    ∀ (lista : List (Nat × Nat)) (acc m : Nat), acc ≤ u32Max →
      s.validar_precio_desde din lista acc = .ok m →
      ∃ ps, precioItems s lista = some ps ∧ acc + ps.sum = m ∧ m ≤ u32Max ∧ m ≤ din := by
  intro lista
  induction lista with
  | nil =>
      intro acc m hacc hok
      unfold Sistema.validar_precio_desde at hok
      split at hok
      · injection hok with hm
        subst hm
        exact ⟨[], rfl, by simp, hacc, by omega⟩
      · cases hok
  | cons hd tl ih =>
      intro acc m hacc hok
      obtain ⟨id, cant⟩ := hd
      unfold Sistema.validar_precio_desde at hok
      cases hg : s.publicaciones.get? (id % usizeMod) with
      | none => rw [hg] at hok; cases hok
      | some p =>
          rw [hg] at hok
          dsimp only at hok
          split at hok
          · cases hok
          · split at hok
            · cases hok
            · rename_i hmul hadd
              obtain ⟨ps, hits, hsum, hm, hd2⟩ :=
                ih (acc + p.precio * cant) m (by omega) hok
              refine ⟨p.precio * cant :: ps, ?_, ?_, hm, hd2⟩
              · unfold precioItems
                rw [hg, hits]
                rfl
              · simp only [List.sum_cons]
                omega

theorem generar_orden_ok_spec (s : Sistema) (lista : List (Nat × Nat)) (din : Nat)
    (caller : AccountId) (o : OrdenCompra) (s' : Sistema)
    (hok : s.generar_orden_compra lista din caller = (.ok o, s')) :
    (∃ v, s.validar_orden lista v = .ok ()) ∧
    s.validar_precio lista din = .ok o.monto ∧
    s'.publicaciones = ((s.actualizar_stock_de_orden lista).2).publicaciones := by
  unfold Sistema.generar_orden_compra at hok
  cases hc1 : s.es_comprador caller with
  | error e => rw [hc1] at hok; simp [Prod.ext_iff] at hok
  | ok b =>
      rw [hc1] at hok
      dsimp only at hok
      cases b with
      | false => rw [if_pos rfl] at hok; simp [Prod.ext_iff] at hok
      | true =>
          rw [if_neg (by decide : ¬ (true = false))] at hok
          cases lista with
          | nil => simp [Prod.ext_iff] at hok
          | cons hd tl =>
              obtain ⟨id0, q0⟩ := hd
              dsimp only at hok
              cases hf : s.publicaciones.find? (fun x => x.id_publicacion == id0) with
              | none => rw [hf] at hok; simp [Prod.ext_iff] at hok
              | some publi =>
                  rw [hf] at hok
                  dsimp only at hok
                  by_cases hvc : publi.id_publicador = caller
                  · rw [if_pos hvc] at hok; simp [Prod.ext_iff] at hok
                  · rw [if_neg hvc] at hok
                    cases hvo : s.validar_orden ((id0, q0) :: tl) publi.id_publicador with
                    | error e => rw [hvo] at hok; simp [Prod.ext_iff] at hok
                    | ok u =>
                        rw [hvo] at hok
                        dsimp only at hok
                        cases hvp : s.validar_precio ((id0, q0) :: tl) din with
                        | error e => rw [hvp] at hok; simp [Prod.ext_iff] at hok
                        | ok monto =>
                            rw [hvp] at hok
                            dsimp only at hok
                            set r2 := (s.actualizar_stock_de_orden ((id0, q0) :: tl)).2
                              with hr2
                            rcases generar_id_orden_spec r2 with ⟨hlt, hgen⟩ | ⟨hge, hgen⟩ <;>
                              rw [hgen] at hok <;> dsimp only at hok
                            · cases hA : Sistema.agregar_orden_usuario
                                  { r2 with
                                      proximo_id_orden := r2.proximo_id_orden + 1,
                                      ordenes := r2.ordenes ++
                                        [⟨(s.actualizar_stock_de_orden ((id0, q0) :: tl)).1,
                                          r2.proximo_id_orden, .Pendiente, caller,
                                          publi.id_publicador, none, monto⟩] }
                                  caller r2.proximo_id_orden with
                              | mk resA s4 =>
                                  obtain ⟨b1, b2, b3, b4⟩ := agregar_orden_usuario_fields
                                    { r2 with
                                        proximo_id_orden := r2.proximo_id_orden + 1,
                                        ordenes := r2.ordenes ++
                                          [⟨(s.actualizar_stock_de_orden ((id0, q0) :: tl)).1,
                                            r2.proximo_id_orden, .Pendiente, caller,
                                            publi.id_publicador, none, monto⟩] }
                                    caller r2.proximo_id_orden
                                  rw [hA] at hok b1 b2 b3 b4
                                  cases resA with
                                  | error e => simp [Prod.ext_iff] at hok
                                  | ok uu =>
                                      dsimp only at hok
                                      cases hB : s4.agregar_orden_usuario publi.id_publicador
                                          r2.proximo_id_orden with
                                      | mk resB s5 =>
                                          obtain ⟨c1, c2, c3, c4⟩ :=
                                            agregar_orden_usuario_fields s4
                                              publi.id_publicador r2.proximo_id_orden
                                          rw [hB] at hok c1 c2 c3 c4
                                          cases resB with
                                          | error e => simp [Prod.ext_iff] at hok
                                          | ok uu2 =>
                                              have ho := congrArg Prod.fst hok
                                              have hs' := congrArg Prod.snd hok
                                              dsimp only at ho hs'
                                              injection ho with ho2
                                              refine ⟨⟨publi.id_publicador, hvo⟩, ?_, ?_⟩
                                              · rw [← ho2]
                                              · rw [← hs', c1, b1]
                            · simp [Prod.ext_iff] at hok

theorem agregar_orden_usuario_err (s : Sistema) (uid : AccountId) (oid : Nat)
    (e : ErrorSistema) (h : (s.agregar_orden_usuario uid oid).1 = .error e) :
    e = .UsuarioNoExiste := by
  unfold Sistema.agregar_orden_usuario at h
  cases hm : mget s.usuarios uid with
  | some u => rw [hm] at h; dsimp only at h; cases h
  | none =>
      rw [hm] at h
      dsimp only at h
      injection h with h2
      exact h2.symm

theorem generar_orden_err_fuera (s : Sistema) (lista : List (Nat × Nat)) (din : Nat)
    (caller : AccountId)
    (h : (s.generar_orden_compra lista din caller).1 = .error .FueraDeRango) :
    (s.generar_orden_compra lista din caller).2 = s := by
  unfold Sistema.generar_orden_compra at h ⊢
  cases hc1 : s.es_comprador caller with
  | error e => rfl
  | ok b =>
      rw [hc1] at h
      dsimp only at h ⊢
      cases b with
      | false => rfl
      | true =>
          rw [if_neg (by decide : ¬ (true = false))] at h ⊢
          cases lista with
          | nil => rfl
          | cons hd tl =>
              obtain ⟨id0, q0⟩ := hd
              dsimp only at h ⊢
              cases hf : s.publicaciones.find? (fun x => x.id_publicacion == id0) with
              | none => rfl
              | some publi =>
                  rw [hf] at h
                  dsimp only at h ⊢
                  by_cases hvc : publi.id_publicador = caller
                  · rw [if_pos hvc]
                  · rw [if_neg hvc] at h
                    rw [if_neg hvc]
                    cases hvo : s.validar_orden ((id0, q0) :: tl) publi.id_publicador with
                    | error e => rfl
                    | ok u =>
                        rw [hvo] at h
                        dsimp only at h ⊢
                        cases hvp : s.validar_precio ((id0, q0) :: tl) din with
                        | error e => rfl
                        | ok monto =>
                            rw [hvp] at h
                            exfalso
                            dsimp only at h
                            set r2 := (s.actualizar_stock_de_orden ((id0, q0) :: tl)).2
                              with hr2
                            rcases generar_id_orden_spec r2 with ⟨hlt, hgen⟩ | ⟨hge, hgen⟩ <;>
                              rw [hgen] at h <;> dsimp only at h
                            · cases hA : Sistema.agregar_orden_usuario
                                  { r2 with
                                      proximo_id_orden := r2.proximo_id_orden + 1,
                                      ordenes := r2.ordenes ++
                                        [⟨(s.actualizar_stock_de_orden ((id0, q0) :: tl)).1,
                                          r2.proximo_id_orden, .Pendiente, caller,
                                          publi.id_publicador, none, monto⟩] }
                                  caller r2.proximo_id_orden with
                              | mk resA s4 =>
                                  rw [hA] at h
                                  cases resA with
                                  | error e =>
                                      dsimp only at h
                                      injection h with h2
                                      have he := agregar_orden_usuario_err _ caller
                                        r2.proximo_id_orden e (by rw [hA])
                                      rw [he] at h2
                                      cases h2
                                  | ok uu =>
                                      dsimp only at h
                                      cases hB : s4.agregar_orden_usuario publi.id_publicador
                                          r2.proximo_id_orden with
                                      | mk resB s5 =>
                                          rw [hB] at h
                                          cases resB with
                                          | error e =>
                                              dsimp only at h
                                              injection h with h2
                                              have he := agregar_orden_usuario_err s4
                                                publi.id_publicador r2.proximo_id_orden e
                                                (by rw [hB])
                                              rw [he] at h2
                                              cases h2
                                          | ok uu2 => dsimp only at h; cases h
                            · cases h

/-- Claim C5: for every successful purchase the created order's `monto`
equals the sum, over the request's items, of the unit price of the
listing resolved at validation time multiplied by the requested quantity
(a sum that fits in `u32` and is covered by the available funds); and a
call that fails with the checked-arithmetic error `FueraDeRango` leaves
the entire state — in particular every listing's stock — unchanged. -/
theorem c5_price_correctness (s : Sistema) (lista : List (Nat × Nat)) (din : Nat)
    (caller : AccountId) :
    (∀ o s', s.generar_orden_compra lista din caller = (.ok o, s') →
      ∃ ps, precioItems s lista = some ps ∧ ps.sum ≤ u32Max ∧ ps.sum ≤ din ∧
        o.monto = ps.sum) ∧
    ((s.generar_orden_compra lista din caller).1 = .error .FueraDeRango →
      (s.generar_orden_compra lista din caller).2 = s) := by
  constructor
  · intro o s' hok
    obtain ⟨_, hvp, _⟩ := generar_orden_ok_spec s lista din caller o s' hok
    obtain ⟨ps, hits, hsum, hm, hdin⟩ :=
      validar_precio_desde_ok s din lista 0 o.monto (Nat.zero_le _) hvp
    exact ⟨ps, hits, by omega, by omega, by omega⟩
  · exact generar_orden_err_fuera s lista din caller

/-- Witness for claim C5 at the concrete state `stateS4`: buying one unit
of listing 0 (price 1000) with funds 4000 yields an order whose amount is
the resolved-price sum. -/
theorem c5_price_correctness_witness :
    ∃ ps, precioItems stateS4 [(0, 1)] = some ps ∧ ps.sum ≤ u32Max ∧ ps.sum ≤ 4000 ∧
      (⟨[(0, 1)], 0, .Pendiente, 1, 0, none, 1000⟩ : OrdenCompra).monto = ps.sum :=
  (c5_price_correctness stateS4 [(0, 1)] 4000 1).1
    ⟨[(0, 1)], 0, .Pendiente, 1, 0, none, 1000⟩ stateS6 (by decide)

theorem find_fst_nodup : ∀ (lista : List (Nat × Nat)) (pr : Nat × Nat),
    (lista.map Prod.fst).Nodup → pr ∈ lista →
    lista.find? (fun x => x.1 == pr.1) = some pr := by
  intro lista
  induction lista with
  | nil => intro pr _ h; cases h
  | cons hd tl ih =>
      intro pr hnd hmem
      rcases List.mem_cons.mp hmem with heq | hmem2
      · subst heq
        exact List.find?_cons_of_pos _ (by simp)
      · rw [List.map_cons] at hnd
        have hnd' := List.nodup_cons.mp hnd
        have hne : ¬ (hd.1 == pr.1) = true := by
          simp only [beq_iff_eq]
          intro hcon
          apply hnd'.1
          have hmm := List.mem_map_of_mem Prod.fst hmem2
          rw [← hcon] at hmm
          exact hmm
        rw [@List.find?_cons_of_neg _ (fun x => x.1 == pr.1) hd tl hne]
        exact ih pr hnd'.2 hmem2

theorem actualizar_stock_de_orden_get? :
    ∀ (lista : List (Nat × Nat)) (s : Sistema),
      PosIds s.publicaciones →
      (lista.map Prod.fst).Nodup →
      (∀ pr ∈ lista, (s.publicaciones.get? pr.1).isSome) →
      ∀ j, ((s.actualizar_stock_de_orden lista).2).publicaciones.get? j =
        match lista.find? (fun pr => pr.1 == j) with
        | some pr => (s.publicaciones.get? j).map (fun p => (p.actualizar_stock pr.2).2)
        | none => s.publicaciones.get? j := by
  intro lista
  induction lista with
  | nil => intro s _ _ _ j; rfl
  | cons hd tl ih =>
      intro s hpos hnd hex j
      obtain ⟨id, cant⟩ := hd
      have hexh : (s.publicaciones.get? id).isSome := hex (id, cant) (List.mem_cons_self _ _)
      obtain ⟨p, hp⟩ := Option.isSome_iff_exists.mp hexh
      have hlen : id < s.publicaciones.length := (List.get?_eq_some.mp hp).1
      unfold Sistema.actualizar_stock_de_orden
      rw [listPosition_eq s.publicaciones hpos id, if_pos hlen]
      dsimp only
      rw [hp]
      dsimp only
      have hpid : ((p.actualizar_stock cant).2).id_publicacion = id := by
        rw [actualizar_stock_id]
        exact hpos id p hp
      have hpos' : PosIds (s.publicaciones.set id (p.actualizar_stock cant).2) :=
        idsAt_set _ hpos hpid
      rw [List.map_cons] at hnd
      have hnd2 := List.nodup_cons.mp hnd
      have hex' : ∀ pr ∈ tl,
          (((s.publicaciones.set id (p.actualizar_stock cant).2)).get? pr.1).isSome := by
        intro pr hpr
        have hne : id ≠ pr.1 := by
          intro hcon
          apply hnd2.1
          have hmm := List.mem_map_of_mem Prod.fst hpr
          rw [← hcon] at hmm
          exact hmm
        rw [List.get?_set_ne _ s.publicaciones hne]
        exact hex pr (List.mem_cons_of_mem _ hpr)
      have IH := ih
        { s with publicaciones := s.publicaciones.set id (p.actualizar_stock cant).2 }
        hpos' hnd2.2 hex' j
      rw [IH]
      by_cases hij : id = j
      · subst hij
        rw [List.find?_cons_of_pos _ (by simp)]
        have hnone : tl.find? (fun pr => pr.1 == id) = none :=
          List.find?_eq_none.mpr (fun x hx => by
            simp only [beq_iff_eq]
            intro hcon
            apply hnd2.1
            have hmm := List.mem_map_of_mem Prod.fst hx
            rw [hcon] at hmm
            exact hmm)
        rw [hnone]
        dsimp only
        rw [List.get?_set_eq, hp]
        rfl
      · have hne : ¬ (((id, cant) : Nat × Nat).1 == j) = true := by
          simp only [beq_iff_eq]
          exact hij
        rw [@List.find?_cons_of_neg _ (fun pr => pr.1 == j) (id, cant) tl hne]
        rw [List.get?_set_ne _ s.publicaciones hij]

/-- Claim C7 (stock conservation): for every reachable state, a successful
`generar_orden_compra` decrements each purchased listing's stock by
exactly the requested quantity, only runs when every requested quantity
is at most the listing's stock at validation time (so the checked
subtraction never underflows and no stock ever goes negative), and leaves
every listing not in the request untouched. -/
theorem c7_stock_conservation (s : Sistema) (lista : List (Nat × Nat)) (din : Nat)
    (caller : AccountId) (o : OrdenCompra) (s' : Sistema) (hre : Reachable s)
    (hok : s.generar_orden_compra lista din caller = (.ok o, s')) :
    (∀ pr ∈ lista, ∃ p, s.publicaciones.get? pr.1 = some p ∧ pr.2 ≤ p.stock ∧
      s'.publicaciones.get? pr.1 = some { p with stock := p.stock - pr.2 }) ∧
    (∀ j, (∀ pr ∈ lista, pr.1 ≠ j) → s'.publicaciones.get? j = s.publicaciones.get? j) := by
  have hpos := (reachable_posOk hre).1
  obtain ⟨⟨v, hvo⟩, _, hpubs⟩ := generar_orden_ok_spec s lista din caller o s' hok
  obtain ⟨hall, hnd⟩ := validar_orden_desde_ok s v lista [] hvo
  have hex : ∀ pr ∈ lista, (s.publicaciones.get? pr.1).isSome := by
    intro pr hpr
    obtain ⟨_, _, p, hf, _, _⟩ := hall pr hpr
    rw [find_id_eq_get? s.publicaciones hpos pr.1] at hf
    rw [hf]
    rfl
  have hspec := actualizar_stock_de_orden_get? lista s hpos hnd hex
  constructor
  · intro pr hpr
    obtain ⟨_, _, p, hf, _, hstock⟩ := hall pr hpr
    rw [find_id_eq_get? s.publicaciones hpos pr.1] at hf
    refine ⟨p, hf, hstock, ?_⟩
    rw [hpubs, hspec pr.1, find_fst_nodup lista pr hnd hpr, hf]
    dsimp only
    simp only [Option.map_some']
    rw [actualizar_stock_snd, if_pos hstock]
  · intro j hnone
    rw [hpubs, hspec j]
    have hfn : lista.find? (fun pr => pr.1 == j) = none :=
      List.find?_eq_none.mpr (fun x hx => by
        simp only [beq_iff_eq]
        exact hnone x hx)
    rw [hfn]

/-- Witness for claim C7: the concrete purchase taking `stateS4` to
`stateS6` decrements listing 0's stock from 4 to 3. -/
theorem c7_stock_conservation_witness :
    ∃ p, stateS4.publicaciones.get? 0 = some p ∧ 1 ≤ p.stock ∧
      stateS6.publicaciones.get? 0 = some { p with stock := p.stock - 1 } :=
  (c7_stock_conservation stateS4 [(0, 1)] 4000 1
      ⟨[(0, 1)], 0, .Pendiente, 1, 0, none, 1000⟩ stateS6 reach_stateS4 (by decide)).1
    (0, 1) (by decide)

/-! ### Claim C1: the round construction exhausting the order-id counter -/

theorem posIds_mapRange (n : Nat) : PosIds ((List.range n).map c1Pub) := by
  intro i p h
  rw [List.get?_map] at h
  have hlt : i < n := by
    by_contra hge
    rw [List.get?_len_le (by simpa [List.length_range] using Nat.le_of_not_lt hge)] at h
    cases h
  rw [List.get?_range hlt] at h
  injection h with h2
  rw [← h2]
  rfl

theorem posIds_c1MidPubs (n : Nat) :
    PosIds ((List.range n).map c1Pub ++ [c1PubNueva n]) := by
  have hlen : (c1PubNueva n).id_publicacion = ((List.range n).map c1Pub).length := by
    simp [c1PubNueva, List.length_map, List.length_range]
  exact idsAt_push _ (posIds_mapRange n) hlen

theorem set_append_length {α : Type} (l : List α) (x y : α) :
    (l ++ [x]).set l.length y = l ++ [y] := by
  induction l with
  | nil => rfl
  | cons a t ih => simp [List.set, ih]

theorem mapRange_get?_lt (n i : Nat) (h : i < n) :
    ((List.range n).map c1Pub).get? i = some (c1Pub i) := by
  rw [List.get?_map, List.get?_range h]
  rfl

theorem c1MidPubs_get? (n pos : Nat) (h : pos < n + 1) :
    ∃ q, ((List.range n).map c1Pub ++ [c1PubNueva n]).get? pos = some q ∧
      q.precio = 1 ∧ q.id_publicacion = pos := by
  rcases Nat.lt_or_ge pos n with hlt | hge
  · refine ⟨c1Pub pos, ?_, rfl, rfl⟩
    rw [List.get?_append (by simpa [List.length_map, List.length_range] using hlt)]
    exact mapRange_get?_lt n pos hlt
  · have hpos : pos = n := by omega
    subst hpos
    refine ⟨c1PubNueva pos, ?_, rfl, rfl⟩
    have hlen : ((List.range pos).map c1Pub).length = pos := by
      simp [List.length_map, List.length_range]
    have hcc := List.get?_concat_length ((List.range pos).map c1Pub) (c1PubNueva pos)
    rw [hlen] at hcc
    exact hcc

theorem mput2_0 {β : Type} (a b v : β) :
    mput [(0, a), (1, b)] 0 v = [(0, v), (1, b)] := rfl

theorem mput2_1 {β : Type} (a b v : β) :
    mput [(0, a), (1, b)] 1 v = [(0, a), (1, v)] := rfl

theorem c1_stepA (k : Nat) (hk : k < u128Max) :
    (c1State k).crear_publicacion 0 1 2 0 = some (.ok (), c1Mid k) := by
  have hgen : (c1State k).generar_id_publicacion =
      (.ok k, { c1State k with proximo_id_publicacion := k + 1 }) := by
    unfold Sistema.generar_id_publicacion
    exact if_pos hk
  unfold Sistema.crear_publicacion
  rw [show (c1State k).es_vendedor 0 = Except.ok true from rfl]
  dsimp only
  rw [show (c1State k).existe_producto 0 = true from rfl]
  rw [if_neg (by decide : ¬ (true = false))]
  rw [if_neg (by decide : ¬ ((2 : Nat) = 0))]
  rw [show mget (c1State k).usuarios 0 =
    some ⟨"a", "b", "c", 0, .Vendedor, List.range k, List.range k⟩ from rfl]
  rw [hgen]
  dsimp only
  rw [show (c1State k).usuarios =
    [(0, (⟨"a", "b", "c", 0, .Vendedor, List.range k, List.range k⟩ : Usuario)),
     (1, (⟨"x", "y", "z", 1, .Comprador, [], List.range k⟩ : Usuario))] from rfl]
  rw [mput2_0]
  unfold c1Mid c1PubNueva
  rw [List.range_succ]
  rfl

theorem c1Mid_get_k (k : Nat) :
    ((List.range k).map c1Pub ++ [c1PubNueva k]).get? k = some (c1PubNueva k) := by
  have hlen : ((List.range k).map c1Pub).length = k := by simp
  have hcc := List.get?_concat_length ((List.range k).map c1Pub) (c1PubNueva k)
  rw [hlen] at hcc
  exact hcc

theorem c1Mid_find (k : Nat) :
    ((List.range k).map c1Pub ++ [c1PubNueva k]).find?
      (fun x => x.id_publicacion == k) = some (c1PubNueva k) := by
  rw [find_id_eq_get? _ (posIds_c1MidPubs k) k]
  exact c1Mid_get_k k

theorem c1Mid_validar_orden (k : Nat) :
    (c1Mid k).validar_orden [(k, 1)] 0 = .ok () := by
  unfold Sistema.validar_orden Sistema.validar_orden_desde
  rw [if_neg (List.not_mem_nil k)]
  rw [if_neg (by decide : ¬ ((1 : Nat) = 0))]
  rw [show (c1Mid k).publicaciones = (List.range k).map c1Pub ++ [c1PubNueva k] from rfl]
  rw [c1Mid_find k]
  dsimp only
  rw [if_neg (show ¬ ((c1PubNueva k).id_publicador ≠ 0) from fun h => h rfl)]
  rw [show (c1PubNueva k).tiene_stock_suficiente 1 = true from rfl]
  rw [if_neg (by decide : ¬ (true = false))]
  rfl

theorem c1Mid_validar_precio (k : Nat) :
    (c1Mid k).validar_precio [(k, 1)] 1 = .ok 1 := by
  obtain ⟨q, hq, hqp, _⟩ := c1MidPubs_get? k (k % usizeMod)
    (by have := Nat.mod_le k usizeMod; omega)
  unfold Sistema.validar_precio Sistema.validar_precio_desde
  rw [show (c1Mid k).publicaciones = (List.range k).map c1Pub ++ [c1PubNueva k] from rfl]
  rw [hq]
  dsimp only
  rw [hqp]
  rw [if_neg (by decide), if_neg (by decide)]
  rfl

theorem c1Mid_actualizar (k : Nat) :
    (c1Mid k).actualizar_stock_de_orden [(k, 1)] =
      ([(0, 1)], { c1Mid k with publicaciones := (List.range (k + 1)).map c1Pub }) := by
  have hlen : ((List.range k).map c1Pub ++ [c1PubNueva k]).length = k + 1 := by simp
  unfold Sistema.actualizar_stock_de_orden
  rw [show (c1Mid k).publicaciones = (List.range k).map c1Pub ++ [c1PubNueva k] from rfl]
  rw [listPosition_eq _ (posIds_c1MidPubs k) k, hlen, if_pos (Nat.lt_succ_self k)]
  dsimp only
  rw [c1Mid_get_k k]
  dsimp only
  rw [show ((c1PubNueva k).actualizar_stock 1).2 = c1Pub k from rfl]
  have hset : ((List.range k).map c1Pub ++ [c1PubNueva k]).set k (c1Pub k) =
      (List.range k).map c1Pub ++ [c1Pub k] := by
    have h := set_append_length ((List.range k).map c1Pub) (c1PubNueva k) (c1Pub k)
    rw [show ((List.range k).map c1Pub).length = k from by simp] at h
    exact h
  rw [hset]
  rw [show (List.range (k + 1)).map c1Pub = (List.range k).map c1Pub ++ [c1Pub k] from by
    rw [List.range_succ, List.map_append]
    rfl]
  rfl

theorem c1State_succ_eq (k : Nat) :
    c1State (k + 1) =
      ⟨[(0, ⟨"a", "b", "c", 0, .Vendedor, List.range (k + 1), List.range k ++ [k]⟩),
        (1, ⟨"x", "y", "z", 1, .Comprador, [], List.range k ++ [k]⟩)],
        (List.range (k + 1)).map c1Pub, [(0, ⟨"p", "d", .Otros⟩)],
        (List.range k).map c1Ord ++ [c1Ord k], k + 1, 1, k + 1⟩ := by
  unfold c1State
  simp only [List.range_succ, List.map_append, List.map_cons, List.map_nil]

theorem c1_stepB (k : Nat) (hk : k < u128Max) :
    (c1Mid k).generar_orden_compra [(k, 1)] 1 1 = (.ok (c1Ord k), c1State (k + 1)) := by
  unfold Sistema.generar_orden_compra
  rw [show (c1Mid k).es_comprador 1 = Except.ok true from rfl]
  dsimp only
  rw [if_neg (by decide : ¬ (true = false))]
  rw [show (c1Mid k).publicaciones = (List.range k).map c1Pub ++ [c1PubNueva k] from rfl]
  rw [c1Mid_find k]
  dsimp only
  rw [show (c1PubNueva k).id_publicador = 0 from rfl]
  rw [if_neg (by decide : ¬ ((0 : Nat) = 1))]
  rw [c1Mid_validar_orden k]
  dsimp only
  rw [c1Mid_validar_precio k]
  dsimp only
  rw [c1Mid_actualizar k]
  dsimp only
  have hgen : ({ c1Mid k with
      publicaciones := (List.range (k + 1)).map c1Pub } : Sistema).generar_id_orden =
      (.ok k, { c1Mid k with
        publicaciones := (List.range (k + 1)).map c1Pub,
        proximo_id_orden := k + 1 }) := by
    unfold Sistema.generar_id_orden
    exact if_pos hk
  rw [hgen]
  dsimp only
  rw [c1State_succ_eq k]
  rfl

theorem c1_reach_zero : Reachable (c1State 0) := by
  have h1 := Reachable.step Reachable.init (Step.registrar Sistema.new "a" "b" "c" .Vendedor 0)
  have h2 := Reachable.step h1 (Step.registrar _ "x" "y" "z" .Comprador 1)
  have h3 := Reachable.step h2 (Step.nuevoProducto _ "p" "d" .Otros 0)
  have e : ((((Sistema.new.registrar_usuario "a" "b" "c" .Vendedor 0).2).registrar_usuario
      "x" "y" "z" .Comprador 1).2.nuevo_producto "p" "d" .Otros 0).2 = c1State 0 := by decide
  rwa [e] at h3

theorem c1_reach : ∀ k, k ≤ u128Max → Reachable (c1State k) := by
  intro k
  induction k with
  | zero => exact fun _ => c1_reach_zero
  | succ n ih =>
      intro hk
      have hn : n < u128Max := hk
      have h2 : Reachable (c1Mid n) :=
        Reachable.step (ih (Nat.le_of_lt hn))
          (Step.crearPublicacion (c1State n) 0 1 2 0 (.ok (), c1Mid n)
            (by decide) (by decide) (by decide) (c1_stepA n hn))
      have hstep := Step.generarOrden (c1Mid n) [(n, 1)] 1 1
        (by
          intro pr hpr
          rcases List.mem_singleton.mp hpr with rfl
          exact ⟨Nat.le_of_lt hn, show (1 : Nat) ≤ u32Max by decide⟩)
        (by decide)
      rw [c1_stepB n hn] at hstep
      exact Reachable.step h2 hstep

theorem c1State_find0 (k : Nat) (hk0 : 0 < k) :
    ((List.range k).map c1Pub).find? (fun x => x.id_publicacion == 0) = some (c1Pub 0) := by
  rw [find_id_eq_get? _ (posIds_mapRange k) 0]
  exact mapRange_get?_lt k 0 hk0

theorem c1State_validar_orden (k : Nat) (hk0 : 0 < k) :
    (c1State k).validar_orden [(0, 1)] 0 = .ok () := by
  unfold Sistema.validar_orden Sistema.validar_orden_desde
  rw [if_neg (List.not_mem_nil 0)]
  rw [if_neg (by decide : ¬ ((1 : Nat) = 0))]
  rw [show (c1State k).publicaciones = (List.range k).map c1Pub from rfl]
  rw [c1State_find0 k hk0]
  dsimp only
  rw [if_neg (show ¬ ((c1Pub 0).id_publicador ≠ 0) from fun h => h rfl)]
  rw [show (c1Pub 0).tiene_stock_suficiente 1 = true from rfl]
  rw [if_neg (by decide : ¬ (true = false))]
  rfl

theorem c1State_validar_precio (k : Nat) (hk0 : 0 < k) :
    (c1State k).validar_precio [(0, 1)] 1 = .ok 1 := by
  unfold Sistema.validar_precio Sistema.validar_precio_desde
  rw [show (c1State k).publicaciones = (List.range k).map c1Pub from rfl]
  rw [show (0 : Nat) % usizeMod = 0 from rfl]
  rw [mapRange_get?_lt k 0 hk0]
  dsimp only
  rw [show (c1Pub 0).precio = 1 from rfl]
  rw [if_neg (by decide), if_neg (by decide)]
  rfl

theorem c1State_actualizar (k : Nat) (hk0 : 0 < k) :
    (c1State k).actualizar_stock_de_orden [(0, 1)] =
      ([(0, 1)], { c1State k with
        publicaciones := ((List.range k).map c1Pub).set 0 ⟨0, 0, 0, 1, 0, true⟩ }) := by
  unfold Sistema.actualizar_stock_de_orden
  rw [show (c1State k).publicaciones = (List.range k).map c1Pub from rfl]
  rw [listPosition_eq _ (posIds_mapRange k) 0]
  rw [show ((List.range k).map c1Pub).length = k from by simp]
  rw [if_pos hk0]
  dsimp only
  rw [mapRange_get?_lt k 0 hk0]
  dsimp only
  rw [show ((c1Pub 0).actualizar_stock 1).2 = (⟨0, 0, 0, 1, 0, true⟩ : Publicacion) from rfl]
  rfl

theorem c1_stepFinal (k : Nat) (hk0 : 0 < k) (hk : ¬ k < u128Max) :
    (c1State k).generar_orden_compra [(0, 1)] 1 1 =
      (.error .PublicacionesLleno, { c1State k with
        publicaciones := ((List.range k).map c1Pub).set 0 ⟨0, 0, 0, 1, 0, true⟩ }) := by
  unfold Sistema.generar_orden_compra
  rw [show (c1State k).es_comprador 1 = Except.ok true from rfl]
  dsimp only
  rw [if_neg (by decide : ¬ (true = false))]
  rw [show (c1State k).publicaciones = (List.range k).map c1Pub from rfl]
  rw [c1State_find0 k hk0]
  dsimp only
  rw [show (c1Pub 0).id_publicador = 0 from rfl]
  rw [if_neg (by decide : ¬ ((0 : Nat) = 1))]
  rw [c1State_validar_orden k hk0]
  dsimp only
  rw [c1State_validar_precio k hk0]
  dsimp only
  rw [c1State_actualizar k hk0]
  dsimp only
  have hgen : ({ c1State k with
      publicaciones := ((List.range k).map c1Pub).set 0 ⟨0, 0, 0, 1, 0, true⟩ }
        : Sistema).generar_id_orden =
      (.error .PublicacionesLleno, { c1State k with
        publicaciones := ((List.range k).map c1Pub).set 0 ⟨0, 0, 0, 1, 0, true⟩ }) := by
    unfold Sistema.generar_id_orden
    exact if_neg hk
  rw [hgen]

theorem c1State_pubs (k : Nat) :
    (c1State k).publicaciones = (List.range k).map c1Pub := rfl

/-- Claim C1, code-bug exhibit: erroring calls are not atomic.  The state
`c1State u128Max` — reachable through `2^128 - 1` rounds of "seller 0
creates a one-peso listing with stock 2, buyer 1 purchases one unit",
which drives the order-id counter to `u128::MAX` and leaves every listing
with stock 1 — refutes the claim: buyer 1's next purchase of listing 0
returns the error `PublicacionesLleno` (from the failed checked increment
in `generar_id_orden`), yet the returned state differs from the state
before the call: listing 0's stock has already been decremented from 1
to 0, because `_generar_orden_compra` mutates stock via
`actualizar_stock_de_orden` *before* calling the fallible
`generar_id_orden`. -/
theorem c1_error_mutates_state :
    Reachable (c1State u128Max) ∧
    ((c1State u128Max).generar_orden_compra [(0, 1)] 1 1).1 =
      Except.error ErrorSistema.PublicacionesLleno ∧
    (c1State u128Max).publicaciones.get? 0 = some ⟨0, 0, 0, 1, 1, true⟩ ∧
    ((c1State u128Max).generar_orden_compra [(0, 1)] 1 1).2.publicaciones.get? 0 =
      some ⟨0, 0, 0, 1, 0, true⟩ ∧
    ((c1State u128Max).generar_orden_compra [(0, 1)] 1 1).2 ≠ c1State u128Max := by
  have hk0 : 0 < u128Max := by decide
  have hfin := c1_stepFinal u128Max hk0 (Nat.lt_irrefl u128Max)
  have hbefore : (c1State u128Max).publicaciones.get? 0 =
      some ⟨0, 0, 0, 1, 1, true⟩ := by
    rw [c1State_pubs]
    rw [mapRange_get?_lt u128Max 0 hk0]
    rfl
  have hafter : ((c1State u128Max).generar_orden_compra [(0, 1)] 1 1).2.publicaciones.get? 0 =
      some ⟨0, 0, 0, 1, 0, true⟩ := by
    rw [hfin]
    dsimp only
    rw [List.get?_set_eq]
    rw [mapRange_get?_lt u128Max 0 hk0]
    rfl
  refine ⟨c1_reach u128Max (Nat.le_refl u128Max), by rw [hfin], hbefore, hafter, ?_⟩
  intro he
  rw [he, hbefore] at hafter
  cases hafter
